import Mathlib

/-!
MprisBluezProxy: adapter discovery, player registration and controller binding.

A shallow embedding of `src/mprisbluezproxy.cpp` (qtmpris).  The proxy is an
explicit state record; every slot is a function from the state before the slot
runs to the state after it, together with what the slot sent out: the D-Bus
traffic, the operations invoked on a controller, the signals emitted on the
proxy player.  The outcome of `QDBusConnection::send` and of
`QDBusConnection::isConnected`, and what a controller reports when asked, are
not decided by this program, so they are inputs of the slot.
-/

namespace MprisBluez

/-! ## Qt value types -/

/-- A C++ `double`, carried as its IEEE-754 bit pattern: the proxy only copies such values. -/
structure QDouble where
  bits : Nat
  deriving DecidableEq, Repr

/-- The part of `QVariant` the proxy handles: the values stored in a `QVariantMap`. -/
inductive QVariant where
  | invalid
  | string (s : String)
  | stringList (l : List String)
  | bool (b : Bool)
  | int (n : Int)
  | longLong (n : Int)
  | double (d : QDouble)
  | objectPath (p : String)
  | map (m : List (String × QVariant))

/-- The container `QMap<Key, T>`, as the list of its entries in iteration order. -/
abbrev QMap (κ : Type) (α : Type) : Type := List (κ × α)

namespace QMap

/-- The member `QMap::contains(key)`. -/
def contains {κ α : Type} [DecidableEq κ] (m : QMap κ α) (key : κ) : Bool :=
  m.any fun e => decide (e.1 = key)

/-- The member `QMap::value(key)`, with `none` where Qt returns a default-constructed value. -/
def value {κ α : Type} [DecidableEq κ] (m : QMap κ α) (key : κ) : Option α :=
  (m.find? fun e => decide (e.1 = key)).map Prod.snd

/-- The member `QMap::keys()`. -/
def keys {κ α : Type} (m : QMap κ α) : List κ :=
  m.map Prod.fst

end QMap

/-- The type `QVariantMap`, which is `QMap<QString, QVariant>`. -/
abbrev QVariantMap : Type := QMap String QVariant

/-- Lexicographic comparison of two character sequences by character code. -/
def QString.lessThan.go : List Char → List Char → Bool
  | _, [] => false
  | [], _ :: _ => true
  | a :: as, b :: bs =>
    if a.toNat < b.toNat then true
    else if b.toNat < a.toNat then false
    else QString.lessThan.go as bs

/-- The `operator<` of `QString`, the key order of a `QMap<QString, T>`: lexicographic by
character code.  Qt compares UTF-16 code units, which for the ASCII keys this program inserts
is the same order. -/
def QString.lessThan (a b : String) : Bool :=
  QString.lessThan.go a.data b.data

/-- The member `QVariantMap::insert(key, value)`: the value of an existing key is replaced, a
new key is placed at its position in the key order. -/
def QVariantMap.insert : QVariantMap → String → QVariant → QVariantMap
  | [], key, v => [(key, v)]
  | (k, w) :: rest, key, v =>
    if key = k then (k, v) :: rest
    else if QString.lessThan key k then (key, v) :: (k, w) :: rest
    else (k, w) :: QVariantMap.insert rest key v

/-- The class `QDBusObjectPath`. -/
structure QDBusObjectPath where
  path : String
  deriving DecidableEq, Repr

/-- The class `QDBusVariant`. -/
structure QDBusVariant where
  variant : QVariant

/-- From mprisbluezproxy.h: `typedef QMap<QString, QDBusVariant> InterfaceList`. -/
abbrev InterfaceList : Type := QMap String QDBusVariant

/-- From mprisbluezproxy.h: `typedef QMap<QString, QVariantMap> AdapterList`. -/
abbrev AdapterList : Type := QMap String QVariantMap

/-- From mprisbluezproxy.h: `typedef QMap<QDBusObjectPath, AdapterList> ManagedObjectList`. -/
abbrev ManagedObjectList : Type := QMap QDBusObjectPath AdapterList

/-! ## D-Bus messages -/

/-- A method call as built by `QDBusMessage::createMethodCall` and `setArguments`. -/
structure QDBusMessage where
  service : String
  path : String
  interface : String
  method : String
  arguments : List QVariant

/-- The enumeration `QDBusError::ErrorType`, as far as the proxy tells its values apart. -/
inductive QDBusErrorType where
  | ServiceUnknown
  | Other (code : Nat)
  deriving DecidableEq, Repr

/-- The `QDBusPendingReply<ManagedObjectList>` of a finished call: an error (`isValid()` is false)
or the reply value. -/
inductive QDBusPendingReply where
  | error (type : QDBusErrorType) (message : String)
  | value (managedObjects : ManagedObjectList)

/-- What the system bus answers while one slot runs. -/
structure SystemBus where
  /-- The result of `QDBusConnection::isConnected()`. -/
  isConnected : Bool
  /-- The result of `QDBusConnection::send(message)`. -/
  sendResult : Bool
  deriving DecidableEq, Repr

/-- One use of the system bus by the proxy. -/
inductive BusCall where
  /-- `connection.send(message)` and what it returned. -/
  | send (message : QDBusMessage) (result : Bool)
  /-- `connection.asyncCall(message)`, watched by a `QDBusPendingCallWatcher`. -/
  | asyncCall (message : QDBusMessage)

/-! ## The proxy player -/

/-- Modelled from the spec: `Mpris::LoopStatus` is declared in mpris.h, which is not among the
sources; the spec gives `loopStatus: enum{None,Track,Playlist}`. -/
inductive LoopStatus where
  | None
  | Track
  | Playlist
  deriving DecidableEq, Repr

/-- Modelled from the spec: `Mpris::PlaybackStatus` is declared in mpris.h, which is not among
the sources; the spec gives `playbackStatus: enum{Playing,Paused,Stopped}`. -/
inductive PlaybackStatus where
  | Playing
  | Paused
  | Stopped
  deriving DecidableEq, Repr

/-- Modelled from the spec: `Mpris::Metadata` is declared in mpris.h, which is not among the
sources; these are the entries the proxy names, the spec's well-known metadata keys (title,
artist, album, genre, length, track-number). -/
inductive Metadata where
  | Title
  | Artist
  | Album
  | Genre
  | Length
  | TrackNumber
  deriving DecidableEq, Repr

/-- Modelled from the spec: `Mpris::enumerationToString` is declared in mpris.h, which is not
among the sources.  The string form of each enumeration value is taken as given. -/
structure EnumerationToString where
  loopStatus : LoopStatus → String
  playbackStatus : PlaybackStatus → String
  metadata : Metadata → String

/-- Modelled from the spec: `MprisPlayer` is declared in mprisplayer.h, which is not among the
sources.  Its properties are the fields of the spec's Mirror State, plus `hasTrackList`; a
getter reads the field of its name. -/
structure MprisPlayer where
  identity : String
  metadata : QVariantMap
  position : Int
  canControl : Bool
  canGoNext : Bool
  canGoPrevious : Bool
  canPause : Bool
  canPlay : Bool
  canSeek : Bool
  hasTrackList : Bool
  minimumRate : QDouble
  maximumRate : QDouble
  rate : QDouble
  loopStatus : LoopStatus
  shuffle : Bool
  volume : QDouble
  playbackStatus : PlaybackStatus

/-! ## The proxy -/

def mprisObjectPath : String := "/org/mpris/MediaPlayer2"
def dBusBluezService : String := "org.bluez"
def dBusBluezMediaInterface : String := "org.bluez.Media1"
def dBusBluezMediaRegisterMethod : String := "RegisterPlayer"
def dBusBluezMediaUnregisterMethod : String := "UnregisterPlayer"

/-- Modelled from the spec: `MprisController` is declared in mpriscontroller.h, which is not
among the sources.  The record holds what the read accessors of a controller return at one
moment, one field for every Mirror State field. -/
structure MprisController where
  identity : String
  metadata : QVariantMap
  position : Int
  canControl : Bool
  canGoNext : Bool
  canGoPrevious : Bool
  canPause : Bool
  canPlay : Bool
  canSeek : Bool
  minimumRate : QDouble
  maximumRate : QDouble
  rate : QDouble
  loopStatus : LoopStatus
  shuffle : Bool
  volume : QDouble
  playbackStatus : PlaybackStatus

/-- The controllers of the process at one moment: the object at each address.  A
`QSharedPointer<MprisController>` is `none` when null and the address of its object otherwise,
so that two pointers are equal exactly when they refer to the same object. -/
abbrev Controllers : Type := Nat → MprisController

/-- The signals of `MprisController` that `connectController` connects. -/
inductive ControllerSignal where
  | identityChanged
  | canControlChanged
  | canGoNextChanged
  | canGoPreviousChanged
  | canPauseChanged
  | canPlayChanged
  | canSeekChanged
  | loopStatusChanged
  | maximumRateChanged
  | metadataChanged
  | minimumRateChanged
  | playbackStatusChanged
  | positionChanged
  | rateChanged
  | shuffleChanged
  | volumeChanged
  | seeked
  deriving DecidableEq, Repr

/-- A signal-slot connection from a controller to the proxy: the signal of the controller at
`sender` is connected to the slot of the same name of `MprisBluezProxy`. -/
structure Connection where
  sender : Nat
  signal : ControllerSignal
  deriving DecidableEq, Repr

/-- The members of `MprisBluezProxy` (the service watcher apart), and the connections that
`QObject::connect` keeps from controllers to the proxy, oldest first. -/
structure MprisBluezProxy where
  m_bluezPlayer : MprisPlayer
  m_currentController : Option Nat
  m_bluezAdapterServicePath : String
  m_bluezRegistered : Bool
  connections : List Connection

/-- The `QVariantMap properties` that `bluezRegisterPlayer` fills in. -/
def bluezRegisterPlayer.properties (toStr : EnumerationToString) (player : MprisPlayer) :
    QVariantMap :=
  let properties : QVariantMap := []
  let properties := properties.insert "Identity" (.string player.identity)
  let properties := properties.insert "Metadata" (.map player.metadata)
  let properties := properties.insert "Position" (.longLong player.position)
  let properties := properties.insert "CanControl" (.bool player.canControl)
  let properties := properties.insert "CanGoNext" (.bool player.canGoNext)
  let properties := properties.insert "CanGoPrevious" (.bool player.canGoPrevious)
  let properties := properties.insert "CanPause" (.bool player.canPause)
  let properties := properties.insert "CanPlay" (.bool player.canPlay)
  let properties := properties.insert "LoopStatus" (.string (toStr.loopStatus player.loopStatus))
  let properties := properties.insert "Shuffle" (.bool player.shuffle)
  let properties := properties.insert "PlaybackStatus"
    (.string (toStr.playbackStatus player.playbackStatus))
  properties

/-- The `QDBusMessage message` of `bluezRegisterPlayer`, arguments set. -/
def bluezRegisterPlayer.message (toStr : EnumerationToString) (s : MprisBluezProxy) :
    QDBusMessage :=
  { service := dBusBluezService
    path := s.m_bluezAdapterServicePath
    interface := dBusBluezMediaInterface
    method := dBusBluezMediaRegisterMethod
    arguments := [.objectPath mprisObjectPath,
                  .map (bluezRegisterPlayer.properties toStr s.m_bluezPlayer)] }

/-- Embeds `MprisBluezProxy::bluezRegisterPlayer`. -/
def bluezRegisterPlayer (toStr : EnumerationToString) (bus : SystemBus) (s : MprisBluezProxy) :
    MprisBluezProxy × List BusCall :=
  let message := bluezRegisterPlayer.message toStr s
  if !bus.sendResult then
    (s, [.send message bus.sendResult])
  else
    ({ s with m_bluezRegistered := true }, [.send message bus.sendResult])

/-- The `QDBusMessage message` of `bluezUnregisterPlayer`, arguments set. -/
def bluezUnregisterPlayer.message (s : MprisBluezProxy) : QDBusMessage :=
  { service := dBusBluezService
    path := s.m_bluezAdapterServicePath
    interface := dBusBluezMediaInterface
    method := dBusBluezMediaUnregisterMethod
    arguments := [.objectPath mprisObjectPath] }

/-- Embeds `MprisBluezProxy::bluezUnregisterPlayer`. -/
def bluezUnregisterPlayer (bus : SystemBus) (s : MprisBluezProxy) :
    MprisBluezProxy × List BusCall :=
  let message := bluezUnregisterPlayer.message s
  if !bus.sendResult then
    (s, [.send message bus.sendResult])
  else
    ({ s with m_bluezRegistered := false }, [.send message bus.sendResult])

/-- Embeds `MprisBluezProxy::bluezSearchAndRegister`: the `GetManagedObjects` call, whose
completion is delivered later to `onBluezAdapterQueryFinished`. -/
def bluezSearchAndRegister (bus : SystemBus) (s : MprisBluezProxy) :
    MprisBluezProxy × List BusCall :=
  if s.m_bluezRegistered then
    (s, [])
  else
    let servicePath := "/"
    let serviceInterface := "org.freedesktop.DBus.ObjectManager"
    let message : QDBusMessage :=
      { service := dBusBluezService
        path := servicePath
        interface := serviceInterface
        method := "GetManagedObjects"
        arguments := [] }
    if !bus.isConnected then
      (s, [])
    else
      (s, [.asyncCall message])

/-- The `for` loop of `onBluezAdapterQueryFinished` over the managed objects, from the
iterator position onwards. -/
def onBluezAdapterQueryFinished.loop (toStr : EnumerationToString) (bus : SystemBus)
    (s : MprisBluezProxy) : ManagedObjectList → MprisBluezProxy × List BusCall
  | [] => (s, [])
  | (key, adapters) :: rest =>
    let path := key.path
    if adapters.contains "org.bluez.Adapter1" && adapters.contains dBusBluezMediaInterface then
      if !s.m_bluezRegistered then
        bluezRegisterPlayer toStr bus { s with m_bluezAdapterServicePath := path }
      else
        (s, [])
    else
      onBluezAdapterQueryFinished.loop toStr bus s rest

/-- Embeds `MprisBluezProxy::onBluezAdapterQueryFinished`, given the reply the watcher holds. -/
def onBluezAdapterQueryFinished (toStr : EnumerationToString) (bus : SystemBus)
    (s : MprisBluezProxy) : QDBusPendingReply → MprisBluezProxy × List BusCall
  | .error _ _ => (s, [])
  | .value managedObjects => onBluezAdapterQueryFinished.loop toStr bus s managedObjects

/-- Embeds `MprisBluezProxy::onBluezAdapterAdded`. -/
def onBluezAdapterAdded (toStr : EnumerationToString) (bus : SystemBus) (s : MprisBluezProxy)
    (path : QDBusObjectPath) (interfaces : InterfaceList) : MprisBluezProxy × List BusCall :=
  if !s.m_bluezRegistered && interfaces.contains dBusBluezMediaInterface then
    bluezRegisterPlayer toStr bus { s with m_bluezAdapterServicePath := path.path }
  else
    (s, [])

/-- Embeds `MprisBluezProxy::onBluezAdapterRemoved`. -/
def onBluezAdapterRemoved (s : MprisBluezProxy) (path : QDBusObjectPath)
    (interfaces : List String) : MprisBluezProxy × List BusCall :=
  if s.m_bluezRegistered && decide (s.m_bluezAdapterServicePath = path.path)
      && interfaces.contains dBusBluezMediaInterface then
    ({ s with m_bluezRegistered := false, m_bluezAdapterServicePath := "" }, [])
  else
    (s, [])

/-- Embeds `MprisBluezProxy::onBluezServiceRegistered`. -/
def onBluezServiceRegistered (bus : SystemBus) (s : MprisBluezProxy) (service : String) :
    MprisBluezProxy × List BusCall :=
  if service = dBusBluezService then
    bluezSearchAndRegister bus s
  else
    (s, [])

/-- Embeds `MprisBluezProxy::onBluezServiceUnregistered`. -/
def onBluezServiceUnregistered (s : MprisBluezProxy) (service : String) :
    MprisBluezProxy × List BusCall :=
  if service = dBusBluezService then
    ({ s with m_bluezRegistered := false, m_bluezAdapterServicePath := "" }, [])
  else
    (s, [])

/-! ## Event sequences -/

/-- The members as the constructor's initialiser list leaves them: `m_currentController(NULL)`,
`m_bluezRegistered(false)`, a default-constructed `m_bluezAdapterServicePath`, and no
connection from any controller. -/
def MprisBluezProxy.initial (player : MprisPlayer) : MprisBluezProxy :=
  { m_bluezPlayer := player
    m_currentController := none
    m_bluezAdapterServicePath := ""
    m_bluezRegistered := false
    connections := [] }

/-- The external events that run discovery and registration code. -/
inductive Event where
  /-- The `finished` signal of the watcher of a `GetManagedObjects` call. -/
  | adapterQueryFinished (reply : QDBusPendingReply)
  /-- The `InterfacesAdded` signal of org.bluez. -/
  | adapterAdded (path : QDBusObjectPath) (interfaces : InterfaceList)
  /-- The `InterfacesRemoved` signal of org.bluez. -/
  | adapterRemoved (path : QDBusObjectPath) (interfaces : List String)
  /-- The `serviceRegistered` signal of the service watcher. -/
  | serviceRegistered (service : String)
  /-- The `serviceUnregistered` signal of the service watcher. -/
  | serviceUnregistered (service : String)
  /-- A call of `bluezUnregisterPlayer`, as the destructor makes. -/
  | unregisterPlayer

/-- The slot an event runs. -/
def step (toStr : EnumerationToString) (bus : SystemBus) (s : MprisBluezProxy) :
    Event → MprisBluezProxy × List BusCall
  | .adapterQueryFinished reply => onBluezAdapterQueryFinished toStr bus s reply
  | .adapterAdded path interfaces => onBluezAdapterAdded toStr bus s path interfaces
  | .adapterRemoved path interfaces => onBluezAdapterRemoved s path interfaces
  | .serviceRegistered service => onBluezServiceRegistered bus s service
  | .serviceUnregistered service => onBluezServiceUnregistered s service
  | .unregisterPlayer => bluezUnregisterPlayer bus s

/-- Events handled one after the other, each to completion, each with the bus behaviour of its
moment; the bus traffic is collected in order. -/
def run (toStr : EnumerationToString) :
    MprisBluezProxy → List (SystemBus × Event) → MprisBluezProxy × List BusCall
  | s, [] => (s, [])
  | s, (bus, e) :: rest =>
    let r := step toStr bus s e
    let r' := run toStr r.1 rest
    (r'.1, r.2 ++ r'.2)

/-! ## Controller binding -/

/-- Modelled from the spec: `MprisPlayer::setIdentity` is not among the sources; a
field-level setter, it stores the value in `identity`. -/
def MprisPlayer.setIdentity (player : MprisPlayer) (identity : String) :
    MprisPlayer :=
  { player with identity := identity }

/-- Modelled from the spec: `MprisPlayer::setMetadata` is not among the sources; a
field-level setter, it stores the value in `metadata`. -/
def MprisPlayer.setMetadata (player : MprisPlayer) (metadata : QVariantMap) :
    MprisPlayer :=
  { player with metadata := metadata }

/-- Modelled from the spec: `MprisPlayer::setPosition` is not among the sources; a
field-level setter, it stores the value in `position`. -/
def MprisPlayer.setPosition (player : MprisPlayer) (position : Int) :
    MprisPlayer :=
  { player with position := position }

/-- Modelled from the spec: `MprisPlayer::setCanControl` is not among the sources; a
field-level setter, it stores the value in `canControl`. -/
def MprisPlayer.setCanControl (player : MprisPlayer) (canControl : Bool) :
    MprisPlayer :=
  { player with canControl := canControl }

/-- Modelled from the spec: `MprisPlayer::setCanGoNext` is not among the sources; a
field-level setter, it stores the value in `canGoNext`. -/
def MprisPlayer.setCanGoNext (player : MprisPlayer) (canGoNext : Bool) :
    MprisPlayer :=
  { player with canGoNext := canGoNext }

/-- Modelled from the spec: `MprisPlayer::setCanGoPrevious` is not among the sources; a
field-level setter, it stores the value in `canGoPrevious`. -/
def MprisPlayer.setCanGoPrevious (player : MprisPlayer) (canGoPrevious : Bool) :
    MprisPlayer :=
  { player with canGoPrevious := canGoPrevious }

/-- Modelled from the spec: `MprisPlayer::setCanPause` is not among the sources; a
field-level setter, it stores the value in `canPause`. -/
def MprisPlayer.setCanPause (player : MprisPlayer) (canPause : Bool) :
    MprisPlayer :=
  { player with canPause := canPause }

/-- Modelled from the spec: `MprisPlayer::setCanPlay` is not among the sources; a
field-level setter, it stores the value in `canPlay`. -/
def MprisPlayer.setCanPlay (player : MprisPlayer) (canPlay : Bool) :
    MprisPlayer :=
  { player with canPlay := canPlay }

/-- Modelled from the spec: `MprisPlayer::setCanSeek` is not among the sources; a
field-level setter, it stores the value in `canSeek`. -/
def MprisPlayer.setCanSeek (player : MprisPlayer) (canSeek : Bool) :
    MprisPlayer :=
  { player with canSeek := canSeek }

/-- Modelled from the spec: `MprisPlayer::setHasTrackList` is not among the sources; a
field-level setter, it stores the value in `hasTrackList`. -/
def MprisPlayer.setHasTrackList (player : MprisPlayer) (hasTrackList : Bool) :
    MprisPlayer :=
  { player with hasTrackList := hasTrackList }

/-- Modelled from the spec: `MprisPlayer::setMinimumRate` is not among the sources; a
field-level setter, it stores the value in `minimumRate`. -/
def MprisPlayer.setMinimumRate (player : MprisPlayer) (minimumRate : QDouble) :
    MprisPlayer :=
  { player with minimumRate := minimumRate }

/-- Modelled from the spec: `MprisPlayer::setMaximumRate` is not among the sources; a
field-level setter, it stores the value in `maximumRate`. -/
def MprisPlayer.setMaximumRate (player : MprisPlayer) (maximumRate : QDouble) :
    MprisPlayer :=
  { player with maximumRate := maximumRate }

/-- Modelled from the spec: `MprisPlayer::setRate` is not among the sources; a
field-level setter, it stores the value in `rate`. -/
def MprisPlayer.setRate (player : MprisPlayer) (rate : QDouble) :
    MprisPlayer :=
  { player with rate := rate }

/-- Modelled from the spec: `MprisPlayer::setLoopStatus` is not among the sources; a
field-level setter, it stores the value in `loopStatus`. -/
def MprisPlayer.setLoopStatus (player : MprisPlayer) (loopStatus : LoopStatus) :
    MprisPlayer :=
  { player with loopStatus := loopStatus }

/-- Modelled from the spec: `MprisPlayer::setShuffle` is not among the sources; a
field-level setter, it stores the value in `shuffle`. -/
def MprisPlayer.setShuffle (player : MprisPlayer) (shuffle : Bool) :
    MprisPlayer :=
  { player with shuffle := shuffle }

/-- Modelled from the spec: `MprisPlayer::setVolume` is not among the sources; a
field-level setter, it stores the value in `volume`. -/
def MprisPlayer.setVolume (player : MprisPlayer) (volume : QDouble) :
    MprisPlayer :=
  { player with volume := volume }

/-- Modelled from the spec: `MprisPlayer::setPlaybackStatus` is not among the sources; a
field-level setter, it stores the value in `playbackStatus`. -/
def MprisPlayer.setPlaybackStatus (player : MprisPlayer) (playbackStatus : PlaybackStatus) :
    MprisPlayer :=
  { player with playbackStatus := playbackStatus }

/-- Embeds `MprisBluezProxy::generateEmptyMetadata`. -/
def generateEmptyMetadata (toStr : EnumerationToString) : QVariantMap :=
  let metadata : QVariantMap := []
  let metadata := metadata.insert (toStr.metadata .Title) (.string "")
  let metadata := metadata.insert (toStr.metadata .Artist) (.string "")
  let metadata := metadata.insert (toStr.metadata .Album) (.string "")
  let metadata := metadata.insert (toStr.metadata .Genre) (.string "")
  let metadata := metadata.insert (toStr.metadata .Length) (.longLong 0)
  let metadata := metadata.insert (toStr.metadata .TrackNumber) (.int 0)
  metadata

/-- The calls `syncData` makes on `m_bluezPlayer`, as a function on the player: `controller`
is what the current controller reports, `none` when `m_currentController` is null. -/
def syncData.player (toStr : EnumerationToString) (controller : Option MprisController)
    (player : MprisPlayer) : MprisPlayer :=
  let player := player.setCanControl true
  let player := player.setHasTrackList false
  match controller with
  | some c =>
    let player := player.setIdentity c.identity
    let player := player.setMetadata c.metadata
    let player := player.setPosition c.position
    let player := player.setCanGoNext c.canGoNext
    let player := player.setCanGoPrevious c.canGoPrevious
    let player := player.setCanPause c.canPause
    let player := player.setCanPlay c.canPlay
    let player := player.setCanSeek c.canSeek
    let player := player.setMaximumRate c.maximumRate
    let player := player.setMinimumRate c.minimumRate
    let player := player.setRate c.rate
    let player := player.setLoopStatus c.loopStatus
    let player := player.setShuffle c.shuffle
    let player := player.setVolume c.volume
    player.setPlaybackStatus c.playbackStatus
  | none =>
    let player := player.setIdentity ""
    let player := player.setPlaybackStatus .Stopped
    let player := player.setPosition 0
    let player := player.setShuffle false
    let player := player.setLoopStatus .None
    let player := player.setMetadata (generateEmptyMetadata toStr)
    let player := player.setCanGoNext false
    let player := player.setCanGoPrevious false
    let player := player.setCanPause false
    let player := player.setCanPlay false
    let player := player.setCanSeek false
    player.setShuffle false

/-- Embeds `MprisBluezProxy::syncData`; `controllers` is what the controllers report while it
runs. -/
def syncData (toStr : EnumerationToString) (controllers : Controllers) (s : MprisBluezProxy) :
    MprisBluezProxy :=
  { s with m_bluezPlayer :=
      syncData.player toStr (s.m_currentController.map controllers) s.m_bluezPlayer }

/-- The effect of `connect(sender, signal, this, slot)`: one more connection, also when an
equal one exists. -/
def connect (s : MprisBluezProxy) (sender : Nat) (signal : ControllerSignal) :
    MprisBluezProxy :=
  { s with connections := s.connections ++ [⟨sender, signal⟩] }

/-- The effect of `disconnect(sender, signal, this, slot)`: every connection of that signal of
that sender to the slot is removed. -/
def disconnect (s : MprisBluezProxy) (sender : Nat) (signal : ControllerSignal) :
    MprisBluezProxy :=
  { s with connections := s.connections.filter fun c => decide (c ≠ ⟨sender, signal⟩) }

/-- Embeds `MprisBluezProxy::connectController`. -/
def connectController (toStr : EnumerationToString) (controllers : Controllers)
    (s : MprisBluezProxy) : MprisBluezProxy :=
  match s.m_currentController with
  | some c =>
    let s := connect s c .identityChanged
    let s := connect s c .canControlChanged
    let s := connect s c .canGoNextChanged
    let s := connect s c .canGoPreviousChanged
    let s := connect s c .canPauseChanged
    let s := connect s c .canPlayChanged
    let s := connect s c .canSeekChanged
    let s := connect s c .loopStatusChanged
    let s := connect s c .maximumRateChanged
    let s := connect s c .metadataChanged
    let s := connect s c .minimumRateChanged
    let s := connect s c .playbackStatusChanged
    let s := connect s c .positionChanged
    let s := connect s c .rateChanged
    let s := connect s c .shuffleChanged
    let s := connect s c .volumeChanged
    let s := connect s c .seeked
    syncData toStr controllers s
  | none => s

/-- Embeds `MprisBluezProxy::disconnectController`. -/
def disconnectController (toStr : EnumerationToString) (controllers : Controllers)
    (s : MprisBluezProxy) : MprisBluezProxy :=
  match s.m_currentController with
  | some c =>
    let s := disconnect s c .identityChanged
    let s := disconnect s c .canControlChanged
    let s := disconnect s c .canGoNextChanged
    let s := disconnect s c .canGoPreviousChanged
    let s := disconnect s c .canPauseChanged
    let s := disconnect s c .canPlayChanged
    let s := disconnect s c .canSeekChanged
    let s := disconnect s c .loopStatusChanged
    let s := disconnect s c .maximumRateChanged
    let s := disconnect s c .metadataChanged
    let s := disconnect s c .minimumRateChanged
    let s := disconnect s c .playbackStatusChanged
    let s := disconnect s c .positionChanged
    let s := disconnect s c .rateChanged
    let s := disconnect s c .shuffleChanged
    let s := disconnect s c .volumeChanged
    let s := disconnect s c .seeked
    let s := { s with m_currentController := none }
    syncData toStr controllers s
  | none => s

/-- Embeds `MprisBluezProxy::setCurrentController`. -/
def setCurrentController (toStr : EnumerationToString) (controllers : Controllers)
    (s : MprisBluezProxy) (currentController : Option Nat) : MprisBluezProxy :=
  if s.m_currentController ≠ currentController then
    let s := disconnectController toStr controllers s
    let s := { s with m_currentController := currentController }
    connectController toStr controllers s
  else
    s

/-- Embeds the constructor `MprisBluezProxy::MprisBluezProxy`: `player` is the `MprisPlayer` as
its own constructor leaves it. -/
def MprisBluezProxy.constructor (toStr : EnumerationToString) (controllers : Controllers)
    (bus : SystemBus) (player : MprisPlayer) : MprisBluezProxy × List BusCall :=
  let s := MprisBluezProxy.initial player
  let s := syncData toStr controllers s
  if !bus.isConnected then
    (s, [])
  else
    bluezSearchAndRegister bus s

/-! ## Requests of the proxy player -/

/-- Modelled from the spec: the imperative operations of `MprisController` (mpriscontroller.h is
not among the sources), as the spec lists them, each with its arguments. -/
inductive ControllerCall where
  | setLoopStatus (loopStatus : LoopStatus)
  | setRate (rate : QDouble)
  | setShuffle (shuffle : Bool)
  | setVolume (volume : QDouble)
  | next
  | openUri (url : String)
  | pause
  | play
  | playPause
  | previous
  | seek (offset : Int)
  | setPosition (trackId : String) (position : Int)
  | stop
  deriving DecidableEq, Repr

/-- Embeds `MprisBluezProxy::onBluezLoopStatusRequested`; the result lists the operations
invoked, each with the controller it is invoked on. -/
def onBluezLoopStatusRequested (s : MprisBluezProxy) (loopStatus : LoopStatus) :
    MprisBluezProxy × List (Nat × ControllerCall) :=
  match s.m_currentController with
  | some c => (s, [(c, .setLoopStatus loopStatus)])
  | none => (s, [])

/-- Embeds `MprisBluezProxy::onBluezRateRequested`; the result lists the operations
invoked, each with the controller it is invoked on. -/
def onBluezRateRequested (s : MprisBluezProxy) (rate : QDouble) :
    MprisBluezProxy × List (Nat × ControllerCall) :=
  match s.m_currentController with
  | some c => (s, [(c, .setRate rate)])
  | none => (s, [])

/-- Embeds `MprisBluezProxy::onBluezShuffleRequested`; the result lists the operations
invoked, each with the controller it is invoked on. -/
def onBluezShuffleRequested (s : MprisBluezProxy) (shuffle : Bool) :
    MprisBluezProxy × List (Nat × ControllerCall) :=
  match s.m_currentController with
  | some c => (s, [(c, .setShuffle shuffle)])
  | none => (s, [])

/-- Embeds `MprisBluezProxy::onBluezVolumeRequested`; the result lists the operations
invoked, each with the controller it is invoked on. -/
def onBluezVolumeRequested (s : MprisBluezProxy) (volume : QDouble) :
    MprisBluezProxy × List (Nat × ControllerCall) :=
  match s.m_currentController with
  | some c => (s, [(c, .setVolume volume)])
  | none => (s, [])

/-- Embeds `MprisBluezProxy::onBluezNextRequested`; the result lists the operations
invoked, each with the controller it is invoked on. -/
def onBluezNextRequested (s : MprisBluezProxy) :
    MprisBluezProxy × List (Nat × ControllerCall) :=
  match s.m_currentController with
  | some c => (s, [(c, .next)])
  | none => (s, [])

/-- Embeds `MprisBluezProxy::onBluezOpenUriRequested`; the result lists the operations
invoked, each with the controller it is invoked on. -/
def onBluezOpenUriRequested (s : MprisBluezProxy) (url : String) :
    MprisBluezProxy × List (Nat × ControllerCall) :=
  match s.m_currentController with
  | some c => (s, [(c, .openUri url)])
  | none => (s, [])

/-- Embeds `MprisBluezProxy::onBluezPauseRequested`; the result lists the operations
invoked, each with the controller it is invoked on. -/
def onBluezPauseRequested (s : MprisBluezProxy) :
    MprisBluezProxy × List (Nat × ControllerCall) :=
  match s.m_currentController with
  | some c => (s, [(c, .pause)])
  | none => (s, [])

/-- Embeds `MprisBluezProxy::onBluezPlayRequested`; the result lists the operations
invoked, each with the controller it is invoked on. -/
def onBluezPlayRequested (s : MprisBluezProxy) :
    MprisBluezProxy × List (Nat × ControllerCall) :=
  match s.m_currentController with
  | some c => (s, [(c, .play)])
  | none => (s, [])

/-- Embeds `MprisBluezProxy::onBluezPlayPauseRequested`; the result lists the operations
invoked, each with the controller it is invoked on. -/
def onBluezPlayPauseRequested (s : MprisBluezProxy) :
    MprisBluezProxy × List (Nat × ControllerCall) :=
  match s.m_currentController with
  | some c => (s, [(c, .playPause)])
  | none => (s, [])

/-- Embeds `MprisBluezProxy::onBluezPreviousRequested`; the result lists the operations
invoked, each with the controller it is invoked on. -/
def onBluezPreviousRequested (s : MprisBluezProxy) :
    MprisBluezProxy × List (Nat × ControllerCall) :=
  match s.m_currentController with
  | some c => (s, [(c, .previous)])
  | none => (s, [])

/-- Embeds `MprisBluezProxy::onBluezSeekRequested`; the result lists the operations
invoked, each with the controller it is invoked on. -/
def onBluezSeekRequested (s : MprisBluezProxy) (offset : Int) :
    MprisBluezProxy × List (Nat × ControllerCall) :=
  match s.m_currentController with
  | some c => (s, [(c, .seek offset)])
  | none => (s, [])

/-- Embeds `MprisBluezProxy::onBluezSetPositionRequested`; the result lists the operations
invoked, each with the controller it is invoked on. -/
def onBluezSetPositionRequested (s : MprisBluezProxy) (trackId : QDBusObjectPath) (position : Int) :
    MprisBluezProxy × List (Nat × ControllerCall) :=
  match s.m_currentController with
  | some c => (s, [(c, .setPosition trackId.path position)])
  | none => (s, [])

/-- Embeds `MprisBluezProxy::onBluezStopRequested`; the result lists the operations
invoked, each with the controller it is invoked on. -/
def onBluezStopRequested (s : MprisBluezProxy) :
    MprisBluezProxy × List (Nat × ControllerCall) :=
  match s.m_currentController with
  | some c => (s, [(c, .stop)])
  | none => (s, [])

/-- A request signal of the proxy player, with its arguments. -/
inductive Request where
  | loopStatusRequested (loopStatus : LoopStatus)
  | rateRequested (rate : QDouble)
  | shuffleRequested (shuffle : Bool)
  | volumeRequested (volume : QDouble)
  | nextRequested
  | openUriRequested (url : String)
  | pauseRequested
  | playRequested
  | playPauseRequested
  | previousRequested
  | seekRequested (offset : Int)
  | setPositionRequested (trackId : QDBusObjectPath) (position : Int)
  | stopRequested
  deriving DecidableEq, Repr

/-- The slot the constructor connects to each request signal of the proxy player. -/
def onBluezRequested (s : MprisBluezProxy) :
    Request → MprisBluezProxy × List (Nat × ControllerCall)
  | .loopStatusRequested loopStatus => onBluezLoopStatusRequested s loopStatus
  | .rateRequested rate => onBluezRateRequested s rate
  | .shuffleRequested shuffle => onBluezShuffleRequested s shuffle
  | .volumeRequested volume => onBluezVolumeRequested s volume
  | .nextRequested => onBluezNextRequested s
  | .openUriRequested url => onBluezOpenUriRequested s url
  | .pauseRequested => onBluezPauseRequested s
  | .playRequested => onBluezPlayRequested s
  | .playPauseRequested => onBluezPlayPauseRequested s
  | .previousRequested => onBluezPreviousRequested s
  | .seekRequested offset => onBluezSeekRequested s offset
  | .setPositionRequested trackId position => onBluezSetPositionRequested s trackId position
  | .stopRequested => onBluezStopRequested s

/-! ## Change notifications of the controller -/

/-- Embeds `MprisBluezProxy::identityChanged`; `none` is the dereference of a null
`m_currentController`. -/
def identityChanged (controllers : Controllers) (s : MprisBluezProxy) :
    Option MprisBluezProxy :=
  match s.m_currentController with
  | some c =>
    some { s with
      m_bluezPlayer := s.m_bluezPlayer.setIdentity (controllers c).identity }
  | none => none

/-- Embeds `MprisBluezProxy::canControlChanged`; `none` is the dereference of a null
`m_currentController`. -/
def canControlChanged (controllers : Controllers) (s : MprisBluezProxy) :
    Option MprisBluezProxy :=
  match s.m_currentController with
  | some c =>
    some { s with
      m_bluezPlayer := s.m_bluezPlayer.setCanControl (controllers c).canControl }
  | none => none

/-- Embeds `MprisBluezProxy::canGoNextChanged`; `none` is the dereference of a null
`m_currentController`. -/
def canGoNextChanged (controllers : Controllers) (s : MprisBluezProxy) :
    Option MprisBluezProxy :=
  match s.m_currentController with
  | some c =>
    some { s with
      m_bluezPlayer := s.m_bluezPlayer.setCanGoNext (controllers c).canGoNext }
  | none => none

/-- Embeds `MprisBluezProxy::canGoPreviousChanged`; `none` is the dereference of a null
`m_currentController`. -/
def canGoPreviousChanged (controllers : Controllers) (s : MprisBluezProxy) :
    Option MprisBluezProxy :=
  match s.m_currentController with
  | some c =>
    some { s with
      m_bluezPlayer := s.m_bluezPlayer.setCanGoPrevious (controllers c).canGoPrevious }
  | none => none

/-- Embeds `MprisBluezProxy::canPauseChanged`; `none` is the dereference of a null
`m_currentController`. -/
def canPauseChanged (controllers : Controllers) (s : MprisBluezProxy) :
    Option MprisBluezProxy :=
  match s.m_currentController with
  | some c =>
    some { s with
      m_bluezPlayer := s.m_bluezPlayer.setCanPause (controllers c).canPause }
  | none => none

/-- Embeds `MprisBluezProxy::canPlayChanged`; `none` is the dereference of a null
`m_currentController`. -/
def canPlayChanged (controllers : Controllers) (s : MprisBluezProxy) :
    Option MprisBluezProxy :=
  match s.m_currentController with
  | some c =>
    some { s with
      m_bluezPlayer := s.m_bluezPlayer.setCanPlay (controllers c).canPlay }
  | none => none

/-- Embeds `MprisBluezProxy::canSeekChanged`; `none` is the dereference of a null
`m_currentController`. -/
def canSeekChanged (controllers : Controllers) (s : MprisBluezProxy) :
    Option MprisBluezProxy :=
  match s.m_currentController with
  | some c =>
    some { s with
      m_bluezPlayer := s.m_bluezPlayer.setCanSeek (controllers c).canSeek }
  | none => none

/-- Embeds `MprisBluezProxy::loopStatusChanged`; `none` is the dereference of a null
`m_currentController`. -/
def loopStatusChanged (controllers : Controllers) (s : MprisBluezProxy) :
    Option MprisBluezProxy :=
  match s.m_currentController with
  | some c =>
    some { s with
      m_bluezPlayer := s.m_bluezPlayer.setLoopStatus (controllers c).loopStatus }
  | none => none

/-- Embeds `MprisBluezProxy::maximumRateChanged`; `none` is the dereference of a null
`m_currentController`. -/
def maximumRateChanged (controllers : Controllers) (s : MprisBluezProxy) :
    Option MprisBluezProxy :=
  match s.m_currentController with
  | some c =>
    some { s with
      m_bluezPlayer := s.m_bluezPlayer.setMaximumRate (controllers c).maximumRate }
  | none => none

/-- Embeds `MprisBluezProxy::metadataChanged`; `none` is the dereference of a null
`m_currentController`. -/
def metadataChanged (controllers : Controllers) (s : MprisBluezProxy) :
    Option MprisBluezProxy :=
  match s.m_currentController with
  | some c =>
    some { s with
      m_bluezPlayer := s.m_bluezPlayer.setMetadata (controllers c).metadata }
  | none => none

/-- Embeds `MprisBluezProxy::minimumRateChanged`; `none` is the dereference of a null
`m_currentController`. -/
def minimumRateChanged (controllers : Controllers) (s : MprisBluezProxy) :
    Option MprisBluezProxy :=
  match s.m_currentController with
  | some c =>
    some { s with
      m_bluezPlayer := s.m_bluezPlayer.setMinimumRate (controllers c).minimumRate }
  | none => none

/-- Embeds `MprisBluezProxy::playbackStatusChanged`; `none` is the dereference of a null
`m_currentController`. -/
def playbackStatusChanged (controllers : Controllers) (s : MprisBluezProxy) :
    Option MprisBluezProxy :=
  match s.m_currentController with
  | some c =>
    some { s with
      m_bluezPlayer := s.m_bluezPlayer.setPlaybackStatus (controllers c).playbackStatus }
  | none => none

/-- Embeds `MprisBluezProxy::rateChanged`; `none` is the dereference of a null
`m_currentController`. -/
def rateChanged (controllers : Controllers) (s : MprisBluezProxy) :
    Option MprisBluezProxy :=
  match s.m_currentController with
  | some c =>
    some { s with
      m_bluezPlayer := s.m_bluezPlayer.setRate (controllers c).rate }
  | none => none

/-- Embeds `MprisBluezProxy::shuffleChanged`; `none` is the dereference of a null
`m_currentController`. -/
def shuffleChanged (controllers : Controllers) (s : MprisBluezProxy) :
    Option MprisBluezProxy :=
  match s.m_currentController with
  | some c =>
    some { s with
      m_bluezPlayer := s.m_bluezPlayer.setShuffle (controllers c).shuffle }
  | none => none

/-- Embeds `MprisBluezProxy::volumeChanged`; `none` is the dereference of a null
`m_currentController`. -/
def volumeChanged (controllers : Controllers) (s : MprisBluezProxy) :
    Option MprisBluezProxy :=
  match s.m_currentController with
  | some c =>
    some { s with
      m_bluezPlayer := s.m_bluezPlayer.setVolume (controllers c).volume }
  | none => none

/-- Embeds `MprisBluezProxy::positionChanged`. -/
def positionChanged (s : MprisBluezProxy) (position : Int) : MprisBluezProxy :=
  { s with m_bluezPlayer := s.m_bluezPlayer.setPosition position }

/-- A signal the proxy emits on the proxy player. -/
inductive PlayerSignal where
  | seeked (position : Int)
  deriving DecidableEq, Repr

/-- Embeds `MprisBluezProxy::seeked`: the position is stored and `seeked(position)` is emitted
on the proxy player. -/
def seeked (s : MprisBluezProxy) (position : Int) : MprisBluezProxy × List PlayerSignal :=
  ({ s with m_bluezPlayer := s.m_bluezPlayer.setPosition position }, [.seeked position])

/-- A signal emitted by a controller, with its argument. -/
inductive Notification where
  | identityChanged
  | canControlChanged
  | canGoNextChanged
  | canGoPreviousChanged
  | canPauseChanged
  | canPlayChanged
  | canSeekChanged
  | loopStatusChanged
  | maximumRateChanged
  | metadataChanged
  | minimumRateChanged
  | playbackStatusChanged
  | positionChanged (position : Int)
  | rateChanged
  | shuffleChanged
  | volumeChanged
  | seeked (position : Int)
  deriving DecidableEq, Repr

/-- The signal of a notification. -/
def Notification.signal : Notification → ControllerSignal
  | .identityChanged => .identityChanged
  | .canControlChanged => .canControlChanged
  | .canGoNextChanged => .canGoNextChanged
  | .canGoPreviousChanged => .canGoPreviousChanged
  | .canPauseChanged => .canPauseChanged
  | .canPlayChanged => .canPlayChanged
  | .canSeekChanged => .canSeekChanged
  | .loopStatusChanged => .loopStatusChanged
  | .maximumRateChanged => .maximumRateChanged
  | .metadataChanged => .metadataChanged
  | .minimumRateChanged => .minimumRateChanged
  | .playbackStatusChanged => .playbackStatusChanged
  | .positionChanged _ => .positionChanged
  | .rateChanged => .rateChanged
  | .shuffleChanged => .shuffleChanged
  | .volumeChanged => .volumeChanged
  | .seeked _ => .seeked

/-- The slot of `MprisBluezProxy` that a connection made by `connectController` runs for a
notification: the slot of the same name. -/
def slot (controllers : Controllers) (s : MprisBluezProxy) :
    Notification → Option (MprisBluezProxy × List PlayerSignal)
  | .identityChanged => (identityChanged controllers s).map fun s => (s, [])
  | .canControlChanged => (canControlChanged controllers s).map fun s => (s, [])
  | .canGoNextChanged => (canGoNextChanged controllers s).map fun s => (s, [])
  | .canGoPreviousChanged => (canGoPreviousChanged controllers s).map fun s => (s, [])
  | .canPauseChanged => (canPauseChanged controllers s).map fun s => (s, [])
  | .canPlayChanged => (canPlayChanged controllers s).map fun s => (s, [])
  | .canSeekChanged => (canSeekChanged controllers s).map fun s => (s, [])
  | .loopStatusChanged => (loopStatusChanged controllers s).map fun s => (s, [])
  | .maximumRateChanged => (maximumRateChanged controllers s).map fun s => (s, [])
  | .metadataChanged => (metadataChanged controllers s).map fun s => (s, [])
  | .minimumRateChanged => (minimumRateChanged controllers s).map fun s => (s, [])
  | .playbackStatusChanged => (playbackStatusChanged controllers s).map fun s => (s, [])
  | .positionChanged position => some (positionChanged s position, [])
  | .rateChanged => (rateChanged controllers s).map fun s => (s, [])
  | .shuffleChanged => (shuffleChanged controllers s).map fun s => (s, [])
  | .volumeChanged => (volumeChanged controllers s).map fun s => (s, [])
  | .seeked position => some (seeked s position)

/-- The delivery of a notification of the controller at `sender` along a list of connections:
the slot runs once for every connection of that signal of that sender, in order. -/
def activate (controllers : Controllers) (sender : Nat) (n : Notification) :
    List Connection → MprisBluezProxy → Option (MprisBluezProxy × List PlayerSignal)
  | [], s => some (s, [])
  | c :: rest, s =>
    if c = ⟨sender, n.signal⟩ then
      match slot controllers s n with
      | some r =>
        match activate controllers sender n rest r.1 with
        | some r' => some (r'.1, r.2 ++ r'.2)
        | none => none
      | none => none
    else
      activate controllers sender n rest s

/-- The controller at `sender` emits a notification: it is delivered along the connections the
proxy has at that moment. -/
def notify (controllers : Controllers) (s : MprisBluezProxy) (sender : Nat)
    (n : Notification) : Option (MprisBluezProxy × List PlayerSignal) :=
  activate controllers sender n s.connections s

/-- The external events that run controller-binding code. -/
inductive BridgeEvent where
  /-- A call of `setCurrentController`. -/
  | bind (currentController : Option Nat)
  /-- A signal emitted by the controller at `sender`. -/
  | notification (sender : Nat) (n : Notification)
  /-- A request signal of the proxy player. -/
  | request (r : Request)

/-- The code a bridge event runs, with what the controllers report at that moment; `none` is
the dereference of a null pointer. -/
def bridgeStep (toStr : EnumerationToString) (controllers : Controllers)
    (s : MprisBluezProxy) : BridgeEvent → Option MprisBluezProxy
  | .bind currentController => some (setCurrentController toStr controllers s currentController)
  | .notification sender n => (notify controllers s sender n).map Prod.fst
  | .request r => some (onBluezRequested s r).1

/-- Bridge events handled one after the other, each to completion, each with what the
controllers report at its moment. -/
def bridgeRun (toStr : EnumerationToString) :
    MprisBluezProxy → List (Controllers × BridgeEvent) → Option MprisBluezProxy
  | s, [] => some s
  | s, (controllers, e) :: rest =>
    match bridgeStep toStr controllers s e with
    | some s' => bridgeRun toStr s' rest
    | none => none

/-! ## Vocabulary of the properties -/

/-- The arguments of the message of a call. -/
def BusCall.arguments : BusCall → List QVariant
  | .send m _ => m.arguments
  | .asyncCall m => m.arguments

/-- An object of the enumeration whose interface set contains both `org.bluez.Adapter1` and
`org.bluez.Media1`. -/
def eligible (o : QDBusObjectPath × AdapterList) : Bool :=
  o.2.contains "org.bluez.Adapter1" && o.2.contains "org.bluez.Media1"

/-- A `RegisterPlayer` method call on the media interface of org.bluez, handed to `send`. -/
def BusCall.isRegisterPlayer : BusCall → Bool
  | .send m _ => m.service = "org.bluez" && m.interface = "org.bluez.Media1"
      && m.method = "RegisterPlayer"
  | .asyncCall _ => false

/-- An `UnregisterPlayer` method call on the media interface of org.bluez, handed to `send`. -/
def BusCall.isUnregisterPlayer : BusCall → Bool
  | .send m _ => m.service = "org.bluez" && m.interface = "org.bluez.Media1"
      && m.method = "UnregisterPlayer"
  | .asyncCall _ => false

/-- The object path a call is addressed to. -/
def BusCall.target : BusCall → String
  | .send m _ => m.path
  | .asyncCall m => m.path

/-- The adapter path of a `RegisterPlayer` call that `send` accepted. -/
def BusCall.registeredPath? : BusCall → Option String
  | .send m true => if m.method = "RegisterPlayer" then some m.path else none
  | _ => none

/-- The adapter path of the most recent `RegisterPlayer` call that `send` accepted, in a log in
chronological order. -/
def lastRegisteredPath : List BusCall → Option String
  | [] => none
  | c :: rest =>
    match lastRegisteredPath rest with
    | some p => some p
    | none => c.registeredPath?

/-- The object paths an event carries are non-empty, as every D-Bus object path is. -/
def Event.pathsNonEmpty : Event → Bool
  | .adapterQueryFinished (.value objs) => objs.all fun o => o.1.path != ""
  | .adapterAdded path _ => path.path != ""
  | _ => true

/-- The registration invariant, for a proxy state and the bus traffic that led to it: if
registered, the recorded adapter path is the one of the most recent RegisterPlayer call that
`send` accepted. -/
def RegistrationInvariant (s : MprisBluezProxy) (log : List BusCall) : Prop :=
  s.m_bluezRegistered = true → lastRegisteredPath log = some s.m_bluezAdapterServicePath

/-- The operation of the controller that corresponds to a request, with the arguments of the
request; the track id of a set-position request is passed as the path it holds. -/
def Request.operation : Request → ControllerCall
  | .loopStatusRequested loopStatus => .setLoopStatus loopStatus
  | .rateRequested rate => .setRate rate
  | .shuffleRequested shuffle => .setShuffle shuffle
  | .volumeRequested volume => .setVolume volume
  | .nextRequested => .next
  | .openUriRequested url => .openUri url
  | .pauseRequested => .pause
  | .playRequested => .play
  | .playPauseRequested => .playPause
  | .previousRequested => .previous
  | .seekRequested offset => .seek offset
  | .setPositionRequested trackId position => .setPosition trackId.path position
  | .stopRequested => .stop

/-- The seventeen signals of a controller, in the order `connectController` connects them. -/
def ControllerSignal.all : List ControllerSignal :=
  [.identityChanged, .canControlChanged, .canGoNextChanged, .canGoPreviousChanged,
   .canPauseChanged, .canPlayChanged, .canSeekChanged, .loopStatusChanged,
   .maximumRateChanged, .metadataChanged, .minimumRateChanged, .playbackStatusChanged,
   .positionChanged, .rateChanged, .shuffleChanged, .volumeChanged, .seeked]

/-- The subscription invariant: no connection when no controller is bound, and otherwise one
connection for each of the seventeen signals of the current controller, and no other. -/
def SubscriptionInvariant (s : MprisBluezProxy) : Prop :=
  s.connections =
    match s.m_currentController with
    | some c => ControllerSignal.all.map fun signal => ⟨c, signal⟩
    | none => []

/-- The default snapshot of the proxy player: empty identity, the six well-known metadata keys
with empty values, stopped at position 0, no shuffle, no loop, nothing offered but control, no
track list. -/
def IsDefaultSnapshot (toStr : EnumerationToString) (player : MprisPlayer) : Prop :=
  player.identity = "" ∧
  (∀ key, player.metadata.contains key = true ↔
    key ∈ [toStr.metadata .Title, toStr.metadata .Artist, toStr.metadata .Album,
           toStr.metadata .Genre, toStr.metadata .Length, toStr.metadata .TrackNumber]) ∧
  player.metadata.keys.length = 6 ∧
  player.metadata.value (toStr.metadata .Title) = some (.string "") ∧
  player.metadata.value (toStr.metadata .Artist) = some (.string "") ∧
  player.metadata.value (toStr.metadata .Album) = some (.string "") ∧
  player.metadata.value (toStr.metadata .Genre) = some (.string "") ∧
  player.metadata.value (toStr.metadata .Length) = some (.longLong 0) ∧
  player.metadata.value (toStr.metadata .TrackNumber) = some (.int 0) ∧
  player.playbackStatus = .Stopped ∧
  player.position = 0 ∧
  player.shuffle = false ∧
  player.loopStatus = .None ∧
  player.canGoNext = false ∧
  player.canGoPrevious = false ∧
  player.canPause = false ∧
  player.canPlay = false ∧
  player.canSeek = false ∧
  player.canControl = true ∧
  player.hasTrackList = false

/-! ## Concrete values for the scenarios -/

/-- String forms of the enumeration values, for the scenarios. -/
def Scenario.toStr : EnumerationToString where
  loopStatus
    | .None => "None"
    | .Track => "Track"
    | .Playlist => "Playlist"
  playbackStatus
    | .Playing => "Playing"
    | .Paused => "Paused"
    | .Stopped => "Stopped"
  metadata
    | .Title => "xesam:title"
    | .Artist => "xesam:artist"
    | .Album => "xesam:album"
    | .Genre => "xesam:genre"
    | .Length => "mpris:length"
    | .TrackNumber => "xesam:trackNumber"

/-- A proxy player with a track playing, for the scenarios. -/
def Scenario.player : MprisPlayer where
  identity := "Media"
  metadata := [("album", .string "A"), ("title", .string "T")]
  position := 1500000
  canControl := true
  canGoNext := true
  canGoPrevious := false
  canPause := true
  canPlay := true
  canSeek := true
  hasTrackList := false
  minimumRate := ⟨0x3FF0000000000000⟩
  maximumRate := ⟨0x3FF0000000000000⟩
  rate := ⟨0x3FF0000000000000⟩
  loopStatus := .Playlist
  shuffle := true
  volume := ⟨0x3FE0000000000000⟩
  playbackStatus := .Playing

/-- The adapter object of the scenarios. -/
def Scenario.hci0 : QDBusObjectPath := ⟨"/org/bluez/hci0"⟩

/-- An enumeration reply with the single object `/org/bluez/hci0` advertising
{Adapter1, Media1}. -/
def Scenario.oneAdapter : ManagedObjectList :=
  [(Scenario.hci0, [("org.bluez.Adapter1", []), ("org.bluez.Media1", [])])]

/-- The interface map {Media1} of an `InterfacesAdded` signal. -/
def Scenario.mediaOnly : InterfaceList := [("org.bluez.Media1", ⟨.invalid⟩)]

/-- A bus on which `send` succeeds. -/
def Scenario.busUp : SystemBus := ⟨true, true⟩

/-- A bus on which `send` fails. -/
def Scenario.busDown : SystemBus := ⟨true, false⟩

/-- The proxy registered against `/org/bluez/hci0`. -/
def Scenario.registered : MprisBluezProxy :=
  { m_bluezPlayer := Scenario.player
    m_currentController := none
    m_bluezAdapterServicePath := "/org/bluez/hci0"
    m_bluezRegistered := true
    connections := [] }

/-- The proxy after a registration attempt against `/org/bluez/hci0` whose send failed. -/
def Scenario.failedRegistration : MprisBluezProxy :=
  (run Scenario.toStr (MprisBluezProxy.initial Scenario.player)
    [(Scenario.busDown, .adapterAdded Scenario.hci0 Scenario.mediaOnly)]).1

/-- The proxy after an empty enumeration reply. -/
def Scenario.afterEmptyReply : MprisBluezProxy :=
  (onBluezAdapterQueryFinished Scenario.toStr Scenario.busUp
    (MprisBluezProxy.initial Scenario.player) (.value [])).1

/-- A run that ends registered: a failed attempt against /org/bluez/hci1, a successful one
against /org/bluez/hci0 from an enumeration reply, the service watcher firing, and an
unregistration whose send fails. -/
def Scenario.trace : List (SystemBus × Event) :=
  [(Scenario.busDown, .adapterAdded ⟨"/org/bluez/hci1"⟩ Scenario.mediaOnly),
   (Scenario.busUp, .adapterQueryFinished (.value Scenario.oneAdapter)),
   (Scenario.busUp, .serviceRegistered "org.bluez"),
   (Scenario.busDown, .unregisterPlayer)]

/-- A controller that is paused in a track and reports that it cannot be controlled. -/
def Scenario.controller : MprisController where
  identity := "Player"
  metadata := [("xesam:title", .string "Song")]
  position := 42000000
  canControl := false
  canGoNext := true
  canGoPrevious := true
  canPause := true
  canPlay := true
  canSeek := false
  minimumRate := ⟨0x3FE0000000000000⟩
  maximumRate := ⟨0x4000000000000000⟩
  rate := ⟨0x3FF0000000000000⟩
  loopStatus := .Track
  shuffle := true
  volume := ⟨0x3FE8000000000000⟩
  playbackStatus := .Paused

/-- Every controller of the process reports what `Scenario.controller` does. -/
def Scenario.controllers : Controllers := fun _ => Scenario.controller

/-- Every controller of the process reports what `Scenario.controller` does, but that it can
be controlled. -/
def Scenario.controllable : Controllers :=
  fun _ => { Scenario.controller with canControl := true }

/-- The proxy as constructed, with the bus connected. -/
def Scenario.constructed : MprisBluezProxy :=
  (MprisBluezProxy.constructor Scenario.toStr Scenario.controllers Scenario.busUp
    Scenario.player).1

/-- The proxy as constructed and then bound to the controller at address 1. -/
def Scenario.bound : MprisBluezProxy :=
  setCurrentController Scenario.toStr Scenario.controllable Scenario.constructed (some 1)

/-- A run in which the controller at address 1 is bound while it can be controlled, and then
notifies that this changed. -/
def Scenario.controlLost : List (Controllers × BridgeEvent) :=
  [(Scenario.controllable, .bind (some 1)),
   (Scenario.controllers, .notification 1 .canControlChanged)]

/-- A run that binds the controller at address 1, has it notify, asks it to pause, binds it
again, switches to the controller at address 2 and hears from the first once more. -/
def Scenario.session : List (Controllers × BridgeEvent) :=
  [(Scenario.controllable, .bind (some 1)),
   (Scenario.controllable, .notification 1 (.positionChanged 7)),
   (Scenario.controllable, .request .pauseRequested),
   (Scenario.controllable, .bind (some 1)),
   (Scenario.controllable, .bind (some 2)),
   (Scenario.controllable, .notification 1 .identityChanged)]

/-! ## Enumeration completion -/

theorem loop_eq_find (toStr : EnumerationToString) (bus : SystemBus) (s : MprisBluezProxy)
    (objs : ManagedObjectList) :
    onBluezAdapterQueryFinished.loop toStr bus s objs =
      match objs.find? eligible with
      | none => (s, [])
      | some o =>
        if s.m_bluezRegistered then (s, [])
        else bluezRegisterPlayer toStr bus { s with m_bluezAdapterServicePath := o.1.path } := by
  induction objs with
  | nil => rfl
  | cons o rest ih =>
    obtain ⟨key, adapters⟩ := o
    by_cases h : eligible (key, adapters) = true
    · have h' := h
      simp only [eligible, dBusBluezMediaInterface] at h'
      cases hr : s.m_bluezRegistered <;>
        simp [onBluezAdapterQueryFinished.loop, List.find?, h, h', hr, dBusBluezMediaInterface]
    · have h' := h
      simp only [eligible] at h'
      simp [onBluezAdapterQueryFinished.loop, List.find?, h, h', ih, dBusBluezMediaInterface]

theorem bluezRegisterPlayer_calls (toStr : EnumerationToString) (bus : SystemBus)
    (s : MprisBluezProxy) :
    (bluezRegisterPlayer toStr bus s).2 =
      [.send (bluezRegisterPlayer.message toStr s) bus.sendResult] := by
  unfold bluezRegisterPlayer
  cases bus.sendResult <;> rfl

theorem bluezRegisterPlayer_state (toStr : EnumerationToString) (bus : SystemBus)
    (s : MprisBluezProxy) :
    (bluezRegisterPlayer toStr bus s).1 =
      { s with m_bluezRegistered := s.m_bluezRegistered || bus.sendResult } := by
  unfold bluezRegisterPlayer
  cases bus.sendResult <;> cases s <;> simp

theorem message_isRegisterPlayer (toStr : EnumerationToString) (s : MprisBluezProxy)
    (r : Bool) :
    (BusCall.send (bluezRegisterPlayer.message toStr s) r).isRegisterPlayer = true := by
  simp [BusCall.isRegisterPlayer, bluezRegisterPlayer.message, dBusBluezService,
    dBusBluezMediaInterface, dBusBluezMediaRegisterMethod]

/-- C1: handling an enumeration completion issues a RegisterPlayer call if and only if the
reply is valid, the proxy is not registered and some object of the reply advertises both
org.bluez.Adapter1 and org.bluez.Media1; the call is then the only one, it carries the fixed
player path, it is addressed to the first such object in iteration order, and that path is
recorded as the adapter path.  A failed reply and a reply without such an object cause no call
and leave the proxy as it was. -/
theorem onBluezAdapterQueryFinished_registers_first_eligible (toStr : EnumerationToString)
    (bus : SystemBus) (s : MprisBluezProxy) (reply : QDBusPendingReply) :
    ((∃ c ∈ (onBluezAdapterQueryFinished toStr bus s reply).2, c.isRegisterPlayer = true) ↔
      ∃ objs, reply = .value objs ∧ s.m_bluezRegistered = false ∧
        ∃ o ∈ objs, eligible o = true) ∧
    (∀ objs o, reply = .value objs → s.m_bluezRegistered = false →
      objs.find? eligible = some o →
      ∃ c, (onBluezAdapterQueryFinished toStr bus s reply).2 = [c] ∧
        c.isRegisterPlayer = true ∧
        c.arguments.head? = some (.objectPath "/org/mpris/MediaPlayer2") ∧
        c.target = o.1.path ∧
        (onBluezAdapterQueryFinished toStr bus s reply).1.m_bluezAdapterServicePath
          = o.1.path) ∧
    (∀ type message, reply = .error type message →
      onBluezAdapterQueryFinished toStr bus s reply = (s, [])) ∧
    (∀ objs, reply = .value objs → (∀ o ∈ objs, eligible o = false) →
      onBluezAdapterQueryFinished toStr bus s reply = (s, [])) := by
  refine ⟨?_, ?_, ?_, ?_⟩
  · cases reply with
    | error type message => simp [onBluezAdapterQueryFinished]
    | value objs =>
      simp only [onBluezAdapterQueryFinished, loop_eq_find]
      cases hf : objs.find? eligible with
      | none =>
        have hnone := List.find?_eq_none.mp hf
        simp only [List.not_mem_nil, false_and, exists_false, false_iff]
        rintro ⟨objs', hobjs, -, o, ho, he⟩
        cases hobjs
        exact hnone o ho he
      | some o =>
        have hmem := List.mem_of_find?_eq_some hf
        have helig := List.find?_some hf
        cases hr : s.m_bluezRegistered with
        | true => simp
        | false =>
          refine ⟨fun _ => ⟨objs, rfl, rfl, o, hmem, helig⟩, fun _ => ?_⟩
          simp only [Bool.false_eq_true, if_false, bluezRegisterPlayer_calls]
          exact ⟨_, List.mem_singleton_self _, message_isRegisterPlayer _ _ _⟩
  · rintro objs o rfl hr hf
    refine ⟨.send (bluezRegisterPlayer.message toStr
      { s with m_bluezAdapterServicePath := o.1.path }) bus.sendResult, ?_, ?_, rfl, rfl, ?_⟩
    · simp [onBluezAdapterQueryFinished, loop_eq_find, hf, hr, bluezRegisterPlayer_calls]
    · exact message_isRegisterPlayer _ _ _
    · simp [onBluezAdapterQueryFinished, loop_eq_find, hf, hr, bluezRegisterPlayer_state]
  · rintro type message rfl
    rfl
  · rintro objs rfl hnone
    have hf : objs.find? eligible = none :=
      List.find?_eq_none.mpr fun o ho => by simp [hnone o ho]
    simp [onBluezAdapterQueryFinished, loop_eq_find, hf]

/-- C1, scenario: the reply with the single object /org/bluez/hci0 advertising
{Adapter1, Media1}, handled while unregistered, gives exactly one RegisterPlayer call, addressed
to /org/bluez/hci0 and carrying /org/mpris/MediaPlayer2. -/
theorem onBluezAdapterQueryFinished_registers_first_eligible_witness :
    ∃ c, (onBluezAdapterQueryFinished Scenario.toStr Scenario.busUp
        (MprisBluezProxy.initial Scenario.player) (.value Scenario.oneAdapter)).2 = [c] ∧
      c.isRegisterPlayer = true ∧
      c.arguments.head? = some (.objectPath "/org/mpris/MediaPlayer2") ∧
      c.target = "/org/bluez/hci0" ∧
      (onBluezAdapterQueryFinished Scenario.toStr Scenario.busUp
        (MprisBluezProxy.initial Scenario.player)
        (.value Scenario.oneAdapter)).1.m_bluezAdapterServicePath = "/org/bluez/hci0" :=
  (onBluezAdapterQueryFinished_registers_first_eligible Scenario.toStr Scenario.busUp
    (MprisBluezProxy.initial Scenario.player) (.value Scenario.oneAdapter)).2.1
    Scenario.oneAdapter (Scenario.hci0, [("org.bluez.Adapter1", []), ("org.bluez.Media1", [])])
    rfl rfl rfl

/-! ## InterfacesAdded -/

/-- C2: handling InterfacesAdded(path, interfaces) while unregistered, with org.bluez.Media1
among the interfaces, records the path and issues exactly one RegisterPlayer call addressed to
it; in every other case no call is issued and the proxy is left as it was. -/
theorem onBluezAdapterAdded_registers_on_media (toStr : EnumerationToString) (bus : SystemBus)
    (s : MprisBluezProxy) (path : QDBusObjectPath) (interfaces : InterfaceList) :
    (s.m_bluezRegistered = false → interfaces.contains "org.bluez.Media1" = true →
      ∃ c, (onBluezAdapterAdded toStr bus s path interfaces).2 = [c] ∧
        c.isRegisterPlayer = true ∧ c.target = path.path ∧
        (onBluezAdapterAdded toStr bus s path interfaces).1.m_bluezAdapterServicePath
          = path.path) ∧
    (¬(s.m_bluezRegistered = false ∧ interfaces.contains "org.bluez.Media1" = true) →
      onBluezAdapterAdded toStr bus s path interfaces = (s, [])) := by
  constructor
  · intro hr hm
    refine ⟨.send (bluezRegisterPlayer.message toStr
      { s with m_bluezAdapterServicePath := path.path }) bus.sendResult, ?_, ?_, rfl, ?_⟩
    · simp [onBluezAdapterAdded, hr, hm, dBusBluezMediaInterface, bluezRegisterPlayer_calls]
    · exact message_isRegisterPlayer _ _ _
    · simp [onBluezAdapterAdded, hr, hm, dBusBluezMediaInterface, bluezRegisterPlayer_state]
  · intro h
    unfold onBluezAdapterAdded
    rw [if_neg]
    simpa [dBusBluezMediaInterface] using h

/-- C2, scenario: after an empty enumeration reply, InterfacesAdded for /org/bluez/hci0 with
{Media1} is the event that issues the one RegisterPlayer call of the run. -/
theorem onBluezAdapterAdded_registers_on_media_witness :
    (run Scenario.toStr (MprisBluezProxy.initial Scenario.player)
        [(Scenario.busUp, .adapterQueryFinished (.value [])),
         (Scenario.busUp, .adapterAdded Scenario.hci0 Scenario.mediaOnly)]).2
      = (onBluezAdapterAdded Scenario.toStr Scenario.busUp Scenario.afterEmptyReply
          Scenario.hci0 Scenario.mediaOnly).2 ∧
    ∃ c, (onBluezAdapterAdded Scenario.toStr Scenario.busUp Scenario.afterEmptyReply
        Scenario.hci0 Scenario.mediaOnly).2 = [c] ∧
      c.isRegisterPlayer = true ∧ c.target = "/org/bluez/hci0" ∧
      (onBluezAdapterAdded Scenario.toStr Scenario.busUp Scenario.afterEmptyReply
        Scenario.hci0 Scenario.mediaOnly).1.m_bluezAdapterServicePath = "/org/bluez/hci0" :=
  ⟨rfl, (onBluezAdapterAdded_registers_on_media Scenario.toStr Scenario.busUp
    Scenario.afterEmptyReply Scenario.hci0 Scenario.mediaOnly).1 rfl rfl⟩

/-! ## Discovery while registered -/

theorem onBluezAdapterQueryFinished_registered (toStr : EnumerationToString) (bus : SystemBus)
    (s : MprisBluezProxy) (h : s.m_bluezRegistered = true) (reply : QDBusPendingReply) :
    onBluezAdapterQueryFinished toStr bus s reply = (s, []) := by
  cases reply with
  | error type message => rfl
  | value objs =>
    simp only [onBluezAdapterQueryFinished, loop_eq_find, h, if_true]
    cases objs.find? eligible <;> rfl

theorem onBluezAdapterAdded_registered (toStr : EnumerationToString) (bus : SystemBus)
    (s : MprisBluezProxy) (h : s.m_bluezRegistered = true) (path : QDBusObjectPath)
    (interfaces : InterfaceList) :
    onBluezAdapterAdded toStr bus s path interfaces = (s, []) := by
  simp [onBluezAdapterAdded, h]

/-- C3: while registered, an enumeration completion (whatever its objects) and an
InterfacesAdded event (whatever its interfaces) issue no call and leave the proxy as it was;
hence two enumeration completions in a row, each with an eligible adapter, started unregistered
with the first send succeeding, issue exactly one RegisterPlayer call in total. -/
theorem discovery_while_registered_is_noop (toStr : EnumerationToString) :
    (∀ (bus : SystemBus) (s : MprisBluezProxy), s.m_bluezRegistered = true →
      (∀ reply, onBluezAdapterQueryFinished toStr bus s reply = (s, [])) ∧
      (∀ path interfaces, onBluezAdapterAdded toStr bus s path interfaces = (s, []))) ∧
    (∀ (bus₁ bus₂ : SystemBus) (s : MprisBluezProxy) (objs₁ objs₂ : ManagedObjectList),
      s.m_bluezRegistered = false → bus₁.sendResult = true →
      (∃ o ∈ objs₁, eligible o = true) → (∃ o ∈ objs₂, eligible o = true) →
      ∃ c, (run toStr s [(bus₁, .adapterQueryFinished (.value objs₁)),
                          (bus₂, .adapterQueryFinished (.value objs₂))]).2 = [c] ∧
        c.isRegisterPlayer = true) := by
  constructor
  · intro bus s h
    exact ⟨onBluezAdapterQueryFinished_registered toStr bus s h,
      onBluezAdapterAdded_registered toStr bus s h⟩
  · rintro bus₁ bus₂ s objs₁ objs₂ hr hsend ⟨o₁, hmem₁, he₁⟩ -
    cases hf : objs₁.find? eligible with
    | none => exact absurd he₁ (by simpa using List.find?_eq_none.mp hf o₁ hmem₁)
    | some o =>
      have hreg : (onBluezAdapterQueryFinished toStr bus₁ s (.value objs₁)).1.m_bluezRegistered
          = true := by
        simp [onBluezAdapterQueryFinished, loop_eq_find, hf, hr, bluezRegisterPlayer_state,
          hsend]
      refine ⟨.send (bluezRegisterPlayer.message toStr
        { s with m_bluezAdapterServicePath := o.1.path }) bus₁.sendResult, ?_,
        message_isRegisterPlayer _ _ _⟩
      simp only [run, step, onBluezAdapterQueryFinished_registered toStr bus₂ _ hreg,
        List.append_nil]
      simp [onBluezAdapterQueryFinished, loop_eq_find, hf, hr, bluezRegisterPlayer_calls]

/-- C3, scenario: registered against /org/bluez/hci0, a further enumeration reply with an
eligible adapter and a further InterfacesAdded with {Media1} cause nothing; and two such
replies handled from the unregistered state give one RegisterPlayer call. -/
theorem discovery_while_registered_is_noop_witness :
    ((∀ reply, onBluezAdapterQueryFinished Scenario.toStr Scenario.busUp Scenario.registered
        reply = (Scenario.registered, [])) ∧
      (∀ path interfaces, onBluezAdapterAdded Scenario.toStr Scenario.busUp
        Scenario.registered path interfaces = (Scenario.registered, []))) ∧
    ∃ c, (run Scenario.toStr (MprisBluezProxy.initial Scenario.player)
        [(Scenario.busUp, .adapterQueryFinished (.value Scenario.oneAdapter)),
         (Scenario.busUp, .adapterQueryFinished (.value Scenario.oneAdapter))]).2 = [c] ∧
      c.isRegisterPlayer = true :=
  ⟨(discovery_while_registered_is_noop Scenario.toStr).1 Scenario.busUp Scenario.registered
      rfl,
    (discovery_while_registered_is_noop Scenario.toStr).2 Scenario.busUp Scenario.busUp
      (MprisBluezProxy.initial Scenario.player) Scenario.oneAdapter Scenario.oneAdapter rfl rfl
      ⟨_, List.mem_singleton_self _, rfl⟩ ⟨_, List.mem_singleton_self _, rfl⟩⟩

/-! ## Unregistration -/

/-- C4, as stated, fails: after a registration attempt against /org/bluez/hci0 whose send
failed the proxy is not registered, and `bluezUnregisterPlayer` still hands an UnregisterPlayer
call, addressed to /org/bluez/hci0, to the bus. -/
theorem bluezUnregisterPlayer_unregistered_still_sends :
    Scenario.failedRegistration.m_bluezRegistered = false ∧
    ∃ c ∈ (bluezUnregisterPlayer Scenario.busUp Scenario.failedRegistration).2,
      c.isUnregisterPlayer = true ∧ c.target = "/org/bluez/hci0" :=
  ⟨rfl, _, List.mem_singleton_self _, rfl, rfl⟩

/-- C4, amended: invoked while not registered, `bluezUnregisterPlayer` leaves the proxy as it
was, whatever the outcome of the send; it hands exactly one UnregisterPlayer call to the bus,
addressed to the recorded adapter path and carrying the fixed player path. -/
theorem bluezUnregisterPlayer_unregistered_keeps_state (bus : SystemBus) (s : MprisBluezProxy)
    (h : s.m_bluezRegistered = false) :
    (bluezUnregisterPlayer bus s).1 = s ∧
    ∃ c, (bluezUnregisterPlayer bus s).2 = [c] ∧ c.isUnregisterPlayer = true ∧
      c.target = s.m_bluezAdapterServicePath ∧
      c.arguments = [.objectPath "/org/mpris/MediaPlayer2"] := by
  have hs : ({ s with m_bluezRegistered := false } : MprisBluezProxy) = s := by
    cases s
    simp_all
  refine ⟨?_, .send (bluezUnregisterPlayer.message s) bus.sendResult, ?_, rfl, rfl, rfl⟩
  · unfold bluezUnregisterPlayer
    cases bus.sendResult <;> simp [hs]
  · unfold bluezUnregisterPlayer
    cases bus.sendResult <;> rfl

/-- C4, amended, at the initial state: the proxy stays as constructed and one UnregisterPlayer
call is handed to the bus. -/
theorem bluezUnregisterPlayer_unregistered_keeps_state_witness :
    (bluezUnregisterPlayer Scenario.busUp (MprisBluezProxy.initial Scenario.player)).1
      = MprisBluezProxy.initial Scenario.player ∧
    ∃ c, (bluezUnregisterPlayer Scenario.busUp (MprisBluezProxy.initial Scenario.player)).2
        = [c] ∧ c.isUnregisterPlayer = true ∧
      c.target = (MprisBluezProxy.initial Scenario.player).m_bluezAdapterServicePath ∧
      c.arguments = [.objectPath "/org/mpris/MediaPlayer2"] :=
  bluezUnregisterPlayer_unregistered_keeps_state Scenario.busUp
    (MprisBluezProxy.initial Scenario.player) rfl

/-- C5, as stated, fails: registered against /org/bluez/hci0, an unregistration whose send
fails leaves `m_bluezRegistered` true. -/
theorem bluezUnregisterPlayer_send_failure_stays_registered :
    Scenario.registered.m_bluezRegistered = true ∧
    (bluezUnregisterPlayer Scenario.busDown Scenario.registered).1.m_bluezRegistered = true :=
  ⟨rfl, rfl⟩

/-- C5, amended: invoked while registered, `bluezUnregisterPlayer` ends with
`m_bluezRegistered` false when the send succeeds, and leaves the proxy as it was (still
registered) when the send fails. -/
theorem bluezUnregisterPlayer_registered_outcome (bus : SystemBus) (s : MprisBluezProxy)
    (h : s.m_bluezRegistered = true) :
    (bus.sendResult = true → (bluezUnregisterPlayer bus s).1.m_bluezRegistered = false) ∧
    (bus.sendResult = false → (bluezUnregisterPlayer bus s).1 = s ∧
      (bluezUnregisterPlayer bus s).1.m_bluezRegistered = true) := by
  unfold bluezUnregisterPlayer
  cases hs : bus.sendResult <;> simp [h]

/-- C5, amended, registered against /org/bluez/hci0: a successful send ends unregistered, a
failed one changes nothing. -/
theorem bluezUnregisterPlayer_registered_outcome_witness :
    (bluezUnregisterPlayer Scenario.busUp Scenario.registered).1.m_bluezRegistered = false ∧
    (bluezUnregisterPlayer Scenario.busDown Scenario.registered).1 = Scenario.registered ∧
    (bluezUnregisterPlayer Scenario.busDown Scenario.registered).1.m_bluezRegistered = true :=
  ⟨(bluezUnregisterPlayer_registered_outcome Scenario.busUp Scenario.registered rfl).1 rfl,
   (bluezUnregisterPlayer_registered_outcome Scenario.busDown Scenario.registered rfl).2 rfl⟩

/-! ## Outcome of a registration attempt -/

/-- C6: a registration attempt from the unregistered state against adapter path `p` (the path
is recorded, then `bluezRegisterPlayer` runs) ends unregistered when the send fails, and
registered with adapter path `p` when it succeeds; there is no third outcome.  The same holds
for the attempt made by InterfacesAdded and by an enumeration completion. -/
theorem registration_attempt_outcome (toStr : EnumerationToString) (bus : SystemBus)
    (s : MprisBluezProxy) (p : String) (h : s.m_bluezRegistered = false) :
    (bus.sendResult = false →
      (bluezRegisterPlayer toStr bus { s with m_bluezAdapterServicePath := p }).1
        = { s with m_bluezAdapterServicePath := p, m_bluezRegistered := false }) ∧
    (bus.sendResult = true →
      (bluezRegisterPlayer toStr bus { s with m_bluezAdapterServicePath := p }).1
        = { s with m_bluezAdapterServicePath := p, m_bluezRegistered := true }) ∧
    ((bluezRegisterPlayer toStr bus { s with m_bluezAdapterServicePath := p }).1
        = { s with m_bluezAdapterServicePath := p, m_bluezRegistered := false } ∨
      (bluezRegisterPlayer toStr bus { s with m_bluezAdapterServicePath := p }).1
        = { s with m_bluezAdapterServicePath := p, m_bluezRegistered := true }) ∧
    (∀ interfaces, interfaces.contains "org.bluez.Media1" = true →
      onBluezAdapterAdded toStr bus s ⟨p⟩ interfaces
        = bluezRegisterPlayer toStr bus { s with m_bluezAdapterServicePath := p }) ∧
    (∀ objs o, objs.find? eligible = some o → o.1.path = p →
      onBluezAdapterQueryFinished toStr bus s (.value objs)
        = bluezRegisterPlayer toStr bus { s with m_bluezAdapterServicePath := p }) := by
  refine ⟨?_, ?_, ?_, ?_, ?_⟩
  · intro hs
    simp [bluezRegisterPlayer_state, hs, h]
  · intro hs
    simp [bluezRegisterPlayer_state, hs]
  · cases hs : bus.sendResult
    · exact Or.inl (by simp [bluezRegisterPlayer_state, hs, h])
    · exact Or.inr (by simp [bluezRegisterPlayer_state, hs])
  · intro interfaces hm
    simp [onBluezAdapterAdded, h, hm, dBusBluezMediaInterface]
  · rintro objs o hf rfl
    simp [onBluezAdapterQueryFinished, loop_eq_find, hf, h]

/-- C6, at the initial state and /org/bluez/hci0: a failed send leaves the proxy unregistered,
a successful one leaves it registered against /org/bluez/hci0. -/
theorem registration_attempt_outcome_witness :
    (bluezRegisterPlayer Scenario.toStr Scenario.busDown
        { MprisBluezProxy.initial Scenario.player with
          m_bluezAdapterServicePath := "/org/bluez/hci0" }).1
      = { MprisBluezProxy.initial Scenario.player with
          m_bluezAdapterServicePath := "/org/bluez/hci0", m_bluezRegistered := false } ∧
    (bluezRegisterPlayer Scenario.toStr Scenario.busUp
        { MprisBluezProxy.initial Scenario.player with
          m_bluezAdapterServicePath := "/org/bluez/hci0" }).1
      = { MprisBluezProxy.initial Scenario.player with
          m_bluezAdapterServicePath := "/org/bluez/hci0", m_bluezRegistered := true } :=
  ⟨(registration_attempt_outcome Scenario.toStr Scenario.busDown
      (MprisBluezProxy.initial Scenario.player) "/org/bluez/hci0" rfl).1 rfl,
   (registration_attempt_outcome Scenario.toStr Scenario.busUp
      (MprisBluezProxy.initial Scenario.player) "/org/bluez/hci0" rfl).2.1 rfl⟩

/-! ## InterfacesRemoved and the service vanishing -/

/-- C8: handling InterfacesRemoved(path, interfaces) while registered, with the removed path
equal to the recorded adapter path and org.bluez.Media1 among the removed interfaces, ends
unregistered; in every other case the proxy is left as it was; no call is ever issued. -/
theorem onBluezAdapterRemoved_unregisters_locally (s : MprisBluezProxy)
    (path : QDBusObjectPath) (interfaces : List String) :
    (s.m_bluezRegistered = true → s.m_bluezAdapterServicePath = path.path →
      "org.bluez.Media1" ∈ interfaces →
      (onBluezAdapterRemoved s path interfaces).1.m_bluezRegistered = false) ∧
    (¬(s.m_bluezRegistered = true ∧ s.m_bluezAdapterServicePath = path.path ∧
        "org.bluez.Media1" ∈ interfaces) →
      (onBluezAdapterRemoved s path interfaces).1 = s) ∧
    (onBluezAdapterRemoved s path interfaces).2 = [] := by
  refine ⟨?_, ?_, ?_⟩
  · intro hr hp hm
    simp [onBluezAdapterRemoved, hr, hp, hm, dBusBluezMediaInterface]
  · intro h
    unfold onBluezAdapterRemoved
    rw [if_neg]
    simpa [dBusBluezMediaInterface, and_assoc] using h
  · unfold onBluezAdapterRemoved
    split <;> rfl

/-- C8, registered against /org/bluez/hci0: the removal of Media1 from /org/bluez/hci0 ends
unregistered, the removal of Media1 from /org/bluez/hci1 changes nothing, neither sends. -/
theorem onBluezAdapterRemoved_unregisters_locally_witness :
    (onBluezAdapterRemoved Scenario.registered Scenario.hci0
        ["org.bluez.Media1"]).1.m_bluezRegistered = false ∧
    (onBluezAdapterRemoved Scenario.registered ⟨"/org/bluez/hci1"⟩ ["org.bluez.Media1"]).1
      = Scenario.registered ∧
    (onBluezAdapterRemoved Scenario.registered Scenario.hci0 ["org.bluez.Media1"]).2 = [] :=
  ⟨(onBluezAdapterRemoved_unregisters_locally Scenario.registered Scenario.hci0
      ["org.bluez.Media1"]).1 rfl rfl (List.mem_singleton_self _),
   (onBluezAdapterRemoved_unregisters_locally Scenario.registered ⟨"/org/bluez/hci1"⟩
      ["org.bluez.Media1"]).2.1 (by decide),
   (onBluezAdapterRemoved_unregisters_locally Scenario.registered Scenario.hci0
      ["org.bluez.Media1"]).2.2⟩

/-- C9: handling the service-unregistered signal for org.bluez ends, from every state, with
`m_bluezRegistered` false and the adapter path empty, the player untouched, and no call
issued. -/
theorem onBluezServiceUnregistered_clears_registration (s : MprisBluezProxy) :
    (onBluezServiceUnregistered s "org.bluez").1.m_bluezRegistered = false ∧
    (onBluezServiceUnregistered s "org.bluez").1.m_bluezAdapterServicePath = "" ∧
    (onBluezServiceUnregistered s "org.bluez").1.m_bluezPlayer = s.m_bluezPlayer ∧
    (onBluezServiceUnregistered s "org.bluez").2 = [] := by
  simp [onBluezServiceUnregistered, dBusBluezService]

/-! ## The registration invariant -/

theorem lastRegisteredPath_append (l₁ l₂ : List BusCall) :
    lastRegisteredPath (l₁ ++ l₂) =
      match lastRegisteredPath l₂ with
      | some p => some p
      | none => lastRegisteredPath l₁ := by
  induction l₁ with
  | nil => cases h : lastRegisteredPath l₂ <;> simp [h, lastRegisteredPath]
  | cons c l₁ ih =>
    show lastRegisteredPath (c :: (l₁ ++ l₂)) = _
    rw [lastRegisteredPath, ih]
    cases lastRegisteredPath l₂ <;> simp [lastRegisteredPath]

theorem lastRegisteredPath_snoc (log : List BusCall) (c : BusCall) :
    lastRegisteredPath (log ++ [c]) =
      match c.registeredPath? with
      | some p => some p
      | none => lastRegisteredPath log := by
  rw [lastRegisteredPath_append]
  simp only [lastRegisteredPath]

theorem invariant_of_unregistered (s : MprisBluezProxy) (log : List BusCall)
    (h : s.m_bluezRegistered = false) : RegistrationInvariant s log := by
  intro h'
  rw [h] at h'
  cases h'

theorem bluezRegisterPlayer_invariant (toStr : EnumerationToString) (bus : SystemBus)
    (s : MprisBluezProxy) (log : List BusCall) (h : s.m_bluezRegistered = false) :
    RegistrationInvariant (bluezRegisterPlayer toStr bus s).1
      (log ++ (bluezRegisterPlayer toStr bus s).2) := by
  rw [bluezRegisterPlayer_calls, bluezRegisterPlayer_state]
  intro hr
  have hs : bus.sendResult = true := by simpa [h] using hr
  rw [lastRegisteredPath_snoc, hs]
  simp [BusCall.registeredPath?, bluezRegisterPlayer.message, dBusBluezMediaRegisterMethod]

theorem bluezUnregisterPlayer_invariant (bus : SystemBus) (s : MprisBluezProxy)
    (log : List BusCall) (h : RegistrationInvariant s log) :
    RegistrationInvariant (bluezUnregisterPlayer bus s).1
      (log ++ (bluezUnregisterPlayer bus s).2) := by
  unfold bluezUnregisterPlayer
  cases hs : bus.sendResult with
  | true => exact invariant_of_unregistered _ _ rfl
  | false =>
    intro hr
    simp only [Bool.not_false, if_true] at hr ⊢
    rw [lastRegisteredPath_snoc]
    simpa [BusCall.registeredPath?] using h hr

theorem step_invariant (toStr : EnumerationToString) (bus : SystemBus) (s : MprisBluezProxy)
    (log : List BusCall) (e : Event) (h : RegistrationInvariant s log) :
    RegistrationInvariant (step toStr bus s e).1 (log ++ (step toStr bus s e).2) := by
  cases e with
  | adapterQueryFinished reply =>
    cases hr : s.m_bluezRegistered with
    | true =>
      simpa [step, onBluezAdapterQueryFinished_registered toStr bus s hr reply] using h
    | false =>
      cases reply with
      | error type message => simpa [step, onBluezAdapterQueryFinished] using h
      | value objs =>
        simp only [step, onBluezAdapterQueryFinished, loop_eq_find]
        cases objs.find? eligible with
        | none => simpa using h
        | some o =>
          simp only [hr, Bool.false_eq_true, if_false]
          exact bluezRegisterPlayer_invariant toStr bus _ log rfl
  | adapterAdded path interfaces =>
    cases hr : s.m_bluezRegistered with
    | true => simpa [step, onBluezAdapterAdded_registered toStr bus s hr] using h
    | false =>
      simp only [step, onBluezAdapterAdded, hr]
      split
      · exact bluezRegisterPlayer_invariant toStr bus _ log rfl
      · simpa using h
  | adapterRemoved path interfaces =>
    simp only [step, onBluezAdapterRemoved]
    split
    · exact invariant_of_unregistered _ _ rfl
    · simpa using h
  | serviceRegistered service =>
    simp only [step, onBluezServiceRegistered, bluezSearchAndRegister]
    split
    · split
      · simpa using h
      · split
        · simpa using h
        · intro hr
          rw [lastRegisteredPath_snoc]
          simpa [BusCall.registeredPath?] using h hr
    · simpa using h
  | serviceUnregistered service =>
    simp only [step, onBluezServiceUnregistered]
    split
    · exact invariant_of_unregistered _ _ rfl
    · simpa using h
  | unregisterPlayer => exact bluezUnregisterPlayer_invariant bus s log h

theorem run_invariant (toStr : EnumerationToString) (trace : List (SystemBus × Event)) :
    ∀ (s : MprisBluezProxy) (log : List BusCall), RegistrationInvariant s log →
      RegistrationInvariant (run toStr s trace).1 (log ++ (run toStr s trace).2) := by
  induction trace with
  | nil => intro s log h; simpa [run] using h
  | cons be rest ih =>
    intro s log h
    obtain ⟨bus, e⟩ := be
    simp only [run, ← List.append_assoc]
    exact ih _ _ (step_invariant toStr bus s log e h)

theorem step_path_nonempty (toStr : EnumerationToString) (bus : SystemBus)
    (s : MprisBluezProxy) (e : Event) (he : e.pathsNonEmpty = true)
    (h : s.m_bluezRegistered = true → s.m_bluezAdapterServicePath ≠ "") :
    (step toStr bus s e).1.m_bluezRegistered = true →
      (step toStr bus s e).1.m_bluezAdapterServicePath ≠ "" := by
  cases e with
  | adapterQueryFinished reply =>
    cases hr : s.m_bluezRegistered with
    | true =>
      simpa [step, onBluezAdapterQueryFinished_registered toStr bus s hr reply, hr] using h
    | false =>
      cases reply with
      | error type message => simp [step, onBluezAdapterQueryFinished, hr]
      | value objs =>
        simp only [step, onBluezAdapterQueryFinished, loop_eq_find]
        cases hf : objs.find? eligible with
        | none => simp [hr]
        | some o =>
          have hmem := List.mem_of_find?_eq_some hf
          have ho : o.1.path ≠ "" := by
            simpa using (List.all_eq_true.mp he) o hmem
          simp only [hr, Bool.false_eq_true, if_false, bluezRegisterPlayer_state]
          exact fun _ => ho
  | adapterAdded path interfaces =>
    cases hr : s.m_bluezRegistered with
    | true => simpa [step, onBluezAdapterAdded_registered toStr bus s hr, hr] using h
    | false =>
      have hp : path.path ≠ "" := by simpa [Event.pathsNonEmpty] using he
      simp only [step, onBluezAdapterAdded, hr]
      split
      · simp only [bluezRegisterPlayer_state]
        exact fun _ => hp
      · simp [hr]
  | adapterRemoved path interfaces =>
    simp only [step, onBluezAdapterRemoved]
    split
    · simp
    · exact h
  | serviceRegistered service =>
    simp only [step, onBluezServiceRegistered, bluezSearchAndRegister]
    split
    · split
      · exact h
      · split <;> exact h
    · exact h
  | serviceUnregistered service =>
    simp only [step, onBluezServiceUnregistered]
    split
    · simp
    · exact h
  | unregisterPlayer =>
    simp only [step, bluezUnregisterPlayer]
    split
    · exact h
    · simp

theorem run_path_nonempty (toStr : EnumerationToString) (trace : List (SystemBus × Event)) :
    ∀ (s : MprisBluezProxy), (∀ be ∈ trace, be.2.pathsNonEmpty = true) →
      (s.m_bluezRegistered = true → s.m_bluezAdapterServicePath ≠ "") →
      (run toStr s trace).1.m_bluezRegistered = true →
        (run toStr s trace).1.m_bluezAdapterServicePath ≠ "" := by
  induction trace with
  | nil => intro s _ h; simpa [run] using h
  | cons be rest ih =>
    intro s hall h
    obtain ⟨bus, e⟩ := be
    simp only [run]
    exact ih _ (fun x hx => hall x (List.mem_cons_of_mem _ hx))
      (step_path_nonempty toStr bus s e (hall (bus, e) (List.mem_cons_self _ _)) h)

/-- C7: in every state reached from the initial one by any sequence of enumeration completions,
InterfacesAdded, InterfacesRemoved, service-registered, service-unregistered and unregister
events, with arbitrary send outcomes: if the proxy is registered, its adapter path is the
target of the most recent RegisterPlayer call that was sent successfully, an UnregisterPlayer
call issued from that state is addressed to that same path, and the path is non-empty provided
the object paths of the events are. -/
theorem registered_path_is_last_registered (toStr : EnumerationToString) (player : MprisPlayer)
    (trace : List (SystemBus × Event))
    (h : (run toStr (MprisBluezProxy.initial player) trace).1.m_bluezRegistered = true) :
    lastRegisteredPath (run toStr (MprisBluezProxy.initial player) trace).2
      = some (run toStr (MprisBluezProxy.initial player) trace).1.m_bluezAdapterServicePath ∧
    (∀ bus, ∃ c,
      (bluezUnregisterPlayer bus (run toStr (MprisBluezProxy.initial player) trace).1).2 = [c] ∧
      c.isUnregisterPlayer = true ∧
      lastRegisteredPath (run toStr (MprisBluezProxy.initial player) trace).2
        = some c.target) ∧
    ((∀ be ∈ trace, be.2.pathsNonEmpty = true) →
      (run toStr (MprisBluezProxy.initial player) trace).1.m_bluezAdapterServicePath ≠ "") := by
  have hinv := run_invariant toStr trace (MprisBluezProxy.initial player) []
    (invariant_of_unregistered _ _ rfl) h
  rw [List.nil_append] at hinv
  refine ⟨hinv, fun bus => ?_, fun hall => ?_⟩
  · refine ⟨.send (bluezUnregisterPlayer.message
      (run toStr (MprisBluezProxy.initial player) trace).1) bus.sendResult, ?_, rfl, hinv⟩
    unfold bluezUnregisterPlayer
    cases bus.sendResult <;> rfl
  · exact run_path_nonempty toStr trace _ hall (fun h' => by cases h') h

/-- C7, on a run that ends registered: the adapter path is /org/bluez/hci0, the target of the
one RegisterPlayer call that was sent successfully, and an UnregisterPlayer call goes there. -/
theorem registered_path_is_last_registered_witness :
    (run Scenario.toStr (MprisBluezProxy.initial Scenario.player)
      Scenario.trace).1.m_bluezRegistered = true ∧
    lastRegisteredPath (run Scenario.toStr (MprisBluezProxy.initial Scenario.player)
      Scenario.trace).2 = some "/org/bluez/hci0" ∧
    (∀ bus, ∃ c,
      (bluezUnregisterPlayer bus (run Scenario.toStr (MprisBluezProxy.initial Scenario.player)
        Scenario.trace).1).2 = [c] ∧
      c.isUnregisterPlayer = true ∧
      lastRegisteredPath (run Scenario.toStr (MprisBluezProxy.initial Scenario.player)
        Scenario.trace).2 = some c.target) ∧
    (run Scenario.toStr (MprisBluezProxy.initial Scenario.player)
      Scenario.trace).1.m_bluezAdapterServicePath ≠ "" :=
  ⟨rfl,
   (registered_path_is_last_registered Scenario.toStr Scenario.player Scenario.trace rfl).1,
   (registered_path_is_last_registered Scenario.toStr Scenario.player Scenario.trace rfl).2.1,
   (registered_path_is_last_registered Scenario.toStr Scenario.player Scenario.trace rfl).2.2
     (by decide)⟩

/-! ## The RegisterPlayer payload -/

theorem properties_eq (toStr : EnumerationToString) (player : MprisPlayer) :
    bluezRegisterPlayer.properties toStr player =
      [("CanControl", .bool player.canControl),
       ("CanGoNext", .bool player.canGoNext),
       ("CanGoPrevious", .bool player.canGoPrevious),
       ("CanPause", .bool player.canPause),
       ("CanPlay", .bool player.canPlay),
       ("Identity", .string player.identity),
       ("LoopStatus", .string (toStr.loopStatus player.loopStatus)),
       ("Metadata", .map player.metadata),
       ("PlaybackStatus", .string (toStr.playbackStatus player.playbackStatus)),
       ("Position", .longLong player.position),
       ("Shuffle", .bool player.shuffle)] := rfl

/-- C10: for every state of the proxy player, the RegisterPlayer call built by
`bluezRegisterPlayer` has exactly two arguments, the object path /org/mpris/MediaPlayer2 and a
property map; the keys of the map are exactly Identity, Metadata, Position, CanControl,
CanGoNext, CanGoPrevious, CanPause, CanPlay, LoopStatus, Shuffle and PlaybackStatus, each once
(so no CanSeek, Rate, MinimumRate, MaximumRate or Volume); each value is the field of the
player of that name, LoopStatus and PlaybackStatus in their string form. -/
theorem bluezRegisterPlayer_payload (toStr : EnumerationToString) (bus : SystemBus)
    (s : MprisBluezProxy) :
    ∃ (c : BusCall) (props : QVariantMap),
      (bluezRegisterPlayer toStr bus s).2 = [c] ∧ c.isRegisterPlayer = true ∧
      c.arguments = [.objectPath "/org/mpris/MediaPlayer2", .map props] ∧
      (∀ key, props.contains key = true ↔
        key ∈ ["Identity", "Metadata", "Position", "CanControl", "CanGoNext", "CanGoPrevious",
               "CanPause", "CanPlay", "LoopStatus", "Shuffle", "PlaybackStatus"]) ∧
      props.keys.Nodup ∧
      (∀ key ∈ ["CanSeek", "Rate", "MinimumRate", "MaximumRate", "Volume"],
        props.contains key = false) ∧
      props.value "Identity" = some (.string s.m_bluezPlayer.identity) ∧
      props.value "Metadata" = some (.map s.m_bluezPlayer.metadata) ∧
      props.value "Position" = some (.longLong s.m_bluezPlayer.position) ∧
      props.value "CanControl" = some (.bool s.m_bluezPlayer.canControl) ∧
      props.value "CanGoNext" = some (.bool s.m_bluezPlayer.canGoNext) ∧
      props.value "CanGoPrevious" = some (.bool s.m_bluezPlayer.canGoPrevious) ∧
      props.value "CanPause" = some (.bool s.m_bluezPlayer.canPause) ∧
      props.value "CanPlay" = some (.bool s.m_bluezPlayer.canPlay) ∧
      props.value "LoopStatus"
        = some (.string (toStr.loopStatus s.m_bluezPlayer.loopStatus)) ∧
      props.value "Shuffle" = some (.bool s.m_bluezPlayer.shuffle) ∧
      props.value "PlaybackStatus"
        = some (.string (toStr.playbackStatus s.m_bluezPlayer.playbackStatus)) := by
  refine ⟨.send (bluezRegisterPlayer.message toStr s) bus.sendResult,
    bluezRegisterPlayer.properties toStr s.m_bluezPlayer,
    bluezRegisterPlayer_calls toStr bus s, message_isRegisterPlayer _ _ _, rfl, ?_, ?_, ?_,
    rfl, rfl, rfl, rfl, rfl, rfl, rfl, rfl, rfl, rfl, rfl⟩
  · intro key
    rw [properties_eq]
    simp only [QMap.contains, List.any_cons, List.any_nil, Bool.or_false, Bool.or_eq_true,
      decide_eq_true_eq, List.mem_cons, List.mem_singleton, List.not_mem_nil, or_false]
    constructor
    · rintro (h | h | h | h | h | h | h | h | h | h | h) <;> simp [← h]
    · rintro (h | h | h | h | h | h | h | h | h | h | h) <;> simp [h]
  · rw [properties_eq]
    simp [QMap.keys]
  · rw [properties_eq]
    simp [QMap.contains]

/-! ## Requests of the proxy player -/

/-- C14: for each of the thirteen requests of the proxy player: with no controller bound the
handler invokes no operation and returns the proxy as it was (player, binding, registration);
with a controller bound it invokes exactly one operation, on the bound controller, the one that
corresponds to the request with the request's arguments, and returns the proxy as it was. -/
theorem onBluezRequested_forwards (s : MprisBluezProxy) (r : Request) :
    (s.m_currentController = none → onBluezRequested s r = (s, [])) ∧
    (∀ c, s.m_currentController = some c → onBluezRequested s r = (s, [(c, r.operation)])) := by
  constructor
  · intro h
    cases r <;>
      simp [onBluezRequested, onBluezLoopStatusRequested, onBluezRateRequested,
        onBluezShuffleRequested, onBluezVolumeRequested, onBluezNextRequested,
        onBluezOpenUriRequested, onBluezPauseRequested, onBluezPlayRequested,
        onBluezPlayPauseRequested, onBluezPreviousRequested, onBluezSeekRequested,
        onBluezSetPositionRequested, onBluezStopRequested, h]
  · intro c h
    cases r <;>
      simp [onBluezRequested, onBluezLoopStatusRequested, onBluezRateRequested,
        onBluezShuffleRequested, onBluezVolumeRequested, onBluezNextRequested,
        onBluezOpenUriRequested, onBluezPauseRequested, onBluezPlayRequested,
        onBluezPlayPauseRequested, onBluezPreviousRequested, onBluezSeekRequested,
        onBluezSetPositionRequested, onBluezStopRequested, Request.operation, h]

/-- C14, scenarios: Pause with no controller bound invokes nothing and changes nothing; with the
controller at address 1 bound, a set-position request for /track/3 at 9000000 invokes
setPosition with those arguments on that controller, and nothing else. -/
theorem onBluezRequested_forwards_witness :
    onBluezRequested Scenario.constructed .pauseRequested = (Scenario.constructed, []) ∧
    onBluezRequested Scenario.bound (.setPositionRequested ⟨"/track/3"⟩ 9000000)
      = (Scenario.bound, [(1, .setPosition "/track/3" 9000000)]) :=
  ⟨(onBluezRequested_forwards Scenario.constructed .pauseRequested).1 rfl,
   (onBluezRequested_forwards Scenario.bound
      (.setPositionRequested ⟨"/track/3"⟩ 9000000)).2 1 rfl⟩

/-! ## Binding a controller -/

theorem syncData_player_some (toStr : EnumerationToString) (c : MprisController)
    (player : MprisPlayer) :
    syncData.player toStr (some c) player =
      { identity := c.identity
        metadata := c.metadata
        position := c.position
        canControl := true
        canGoNext := c.canGoNext
        canGoPrevious := c.canGoPrevious
        canPause := c.canPause
        canPlay := c.canPlay
        canSeek := c.canSeek
        hasTrackList := false
        minimumRate := c.minimumRate
        maximumRate := c.maximumRate
        rate := c.rate
        loopStatus := c.loopStatus
        shuffle := c.shuffle
        volume := c.volume
        playbackStatus := c.playbackStatus } := rfl

theorem syncData_player_none (toStr : EnumerationToString) (player : MprisPlayer) :
    syncData.player toStr none player =
      { identity := ""
        metadata := generateEmptyMetadata toStr
        position := 0
        canControl := true
        canGoNext := false
        canGoPrevious := false
        canPause := false
        canPlay := false
        canSeek := false
        hasTrackList := false
        minimumRate := player.minimumRate
        maximumRate := player.maximumRate
        rate := player.rate
        loopStatus := .None
        shuffle := false
        volume := player.volume
        playbackStatus := .Stopped } := rfl

theorem connectController_player (toStr : EnumerationToString) (controllers : Controllers)
    (s : MprisBluezProxy) :
    (connectController toStr controllers s).m_bluezPlayer =
      match s.m_currentController with
      | some c => syncData.player toStr (some (controllers c)) s.m_bluezPlayer
      | none => s.m_bluezPlayer := by
  cases h : s.m_currentController <;> simp [connectController, syncData, connect, h]

theorem disconnectController_player (toStr : EnumerationToString) (controllers : Controllers)
    (s : MprisBluezProxy) :
    (disconnectController toStr controllers s).m_bluezPlayer =
      match s.m_currentController with
      | some _ => syncData.player toStr none s.m_bluezPlayer
      | none => s.m_bluezPlayer := by
  cases h : s.m_currentController <;> simp [disconnectController, syncData, disconnect, h]

theorem setCurrentController_player_some (toStr : EnumerationToString)
    (controllers : Controllers) (s : MprisBluezProxy) (c : Nat)
    (h : s.m_currentController ≠ some c) :
    (setCurrentController toStr controllers s (some c)).m_bluezPlayer =
      syncData.player toStr (some (controllers c))
        (disconnectController toStr controllers s).m_bluezPlayer := by
  simp only [setCurrentController, h, ne_eq, not_false_eq_true, if_true,
    connectController_player]

theorem setCurrentController_player_none (toStr : EnumerationToString)
    (controllers : Controllers) (s : MprisBluezProxy) (c : Nat)
    (h : s.m_currentController = some c) :
    (setCurrentController toStr controllers s none).m_bluezPlayer =
      syncData.player toStr none s.m_bluezPlayer := by
  simp [setCurrentController, h, connectController_player, disconnectController_player]

/-- C11, as stated, fails: bound to a controller that reports canControl = false, the proxy
player has canControl = true. -/
theorem setCurrentController_canControl_not_copied :
    Scenario.constructed.m_currentController ≠ some 1 ∧
    (Scenario.controllers 1).canControl = false ∧
    (setCurrentController Scenario.toStr Scenario.controllers Scenario.constructed
      (some 1)).m_bluezPlayer.canControl = true :=
  ⟨by decide, rfl, rfl⟩

/-- C11, amended: for every controller X other than the one bound, and every state of the
proxy, after `setCurrentController(X)` the proxy player holds what X reports for identity,
metadata, position, canGoNext, canGoPrevious, canPause, canPlay, canSeek, minimumRate,
maximumRate, rate, loopStatus, shuffle, volume and playbackStatus; its canControl is true and
its hasTrackList is false. -/
theorem setCurrentController_snapshot (toStr : EnumerationToString) (controllers : Controllers)
    (s : MprisBluezProxy) (X : Nat) (h : s.m_currentController ≠ some X) :
    (setCurrentController toStr controllers s (some X)).m_bluezPlayer =
      { identity := (controllers X).identity
        metadata := (controllers X).metadata
        position := (controllers X).position
        canControl := true
        canGoNext := (controllers X).canGoNext
        canGoPrevious := (controllers X).canGoPrevious
        canPause := (controllers X).canPause
        canPlay := (controllers X).canPlay
        canSeek := (controllers X).canSeek
        hasTrackList := false
        minimumRate := (controllers X).minimumRate
        maximumRate := (controllers X).maximumRate
        rate := (controllers X).rate
        loopStatus := (controllers X).loopStatus
        shuffle := (controllers X).shuffle
        volume := (controllers X).volume
        playbackStatus := (controllers X).playbackStatus } := by
  rw [setCurrentController_player_some toStr controllers s X h]
  exact syncData_player_some toStr (controllers X) _

/-- C11, amended, scenario: the proxy as constructed, bound to the controller at address 1,
holds what that controller reports, with canControl true. -/
theorem setCurrentController_snapshot_witness :
    (setCurrentController Scenario.toStr Scenario.controllers Scenario.constructed
      (some 1)).m_bluezPlayer =
      { identity := "Player"
        metadata := [("xesam:title", .string "Song")]
        position := 42000000
        canControl := true
        canGoNext := true
        canGoPrevious := true
        canPause := true
        canPlay := true
        canSeek := false
        hasTrackList := false
        minimumRate := ⟨0x3FE0000000000000⟩
        maximumRate := ⟨0x4000000000000000⟩
        rate := ⟨0x3FF0000000000000⟩
        loopStatus := .Track
        shuffle := true
        volume := ⟨0x3FE8000000000000⟩
        playbackStatus := .Paused } :=
  setCurrentController_snapshot Scenario.toStr Scenario.controllers Scenario.constructed 1
    (by decide)

/-! ## The default snapshot -/

theorem contains_insert (m : QVariantMap) (k : String) (v : QVariant) (key : String) :
    QMap.contains (QVariantMap.insert m k v) key = (decide (k = key) || QMap.contains m key) := by
  induction m with
  | nil => simp [QVariantMap.insert, QMap.contains]
  | cons e rest ih =>
    obtain ⟨k₀, w⟩ := e
    unfold QVariantMap.insert
    split
    · rename_i hk
      subst hk
      simp [QMap.contains]
    · split
      · simp [QMap.contains]
      · have ih' := ih
        simp only [QMap.contains] at ih' ⊢
        simp only [List.any_cons, ih']
        cases decide (k₀ = key) <;> cases decide (k = key) <;> simp

theorem value_insert (m : QVariantMap) (k : String) (v : QVariant) (key : String) :
    QMap.value (QVariantMap.insert m k v) key = if key = k then some v else QMap.value m key := by
  induction m with
  | nil =>
    by_cases h : key = k
    · simp [QVariantMap.insert, QMap.value, h]
    · have h' : ¬k = key := fun e => h e.symm
      simp [QVariantMap.insert, QMap.value, h, h']
  | cons e rest ih =>
    obtain ⟨k₀, w⟩ := e
    unfold QVariantMap.insert
    split
    · rename_i hk
      subst hk
      by_cases h : key = k
      · simp [QMap.value, h]
      · have h' : ¬k = key := fun e => h e.symm
        simp [QMap.value, h, h']
    · rename_i hk
      split
      · by_cases h : key = k
        · simp [QMap.value, h]
        · have h' : ¬k = key := fun e => h e.symm
          simp [QMap.value, h, h']
      · have ih' := ih
        simp only [QMap.value] at ih' ⊢
        by_cases h₀ : k₀ = key
        · have hne : ¬key = k := fun e => hk (by rw [← e, h₀])
          simp [h₀, hne]
        · simp only [List.find?_cons, h₀, decide_False]
          exact ih'

theorem length_insert_le (m : QVariantMap) (k : String) (v : QVariant) :
    (QVariantMap.insert m k v).length ≤ m.length + 1 := by
  induction m with
  | nil => simp [QVariantMap.insert]
  | cons e rest ih =>
    obtain ⟨k₀, w⟩ := e
    unfold QVariantMap.insert
    split
    · simp
    · split
      · simp
      · simpa using ih

theorem contains_iff_mem_keys (m : QVariantMap) (key : String) :
    QMap.contains m key = true ↔ key ∈ QMap.keys m := by
  simp [QMap.contains, QMap.keys]

theorem generateEmptyMetadata_default (toStr : EnumerationToString)
    (hinj : Function.Injective toStr.metadata) :
    (∀ key, (generateEmptyMetadata toStr).contains key = true ↔
      key ∈ [toStr.metadata .Title, toStr.metadata .Artist, toStr.metadata .Album,
             toStr.metadata .Genre, toStr.metadata .Length, toStr.metadata .TrackNumber]) ∧
    (generateEmptyMetadata toStr).keys.length = 6 ∧
    (generateEmptyMetadata toStr).value (toStr.metadata .Title) = some (.string "") ∧
    (generateEmptyMetadata toStr).value (toStr.metadata .Artist) = some (.string "") ∧
    (generateEmptyMetadata toStr).value (toStr.metadata .Album) = some (.string "") ∧
    (generateEmptyMetadata toStr).value (toStr.metadata .Genre) = some (.string "") ∧
    (generateEmptyMetadata toStr).value (toStr.metadata .Length) = some (.longLong 0) ∧
    (generateEmptyMetadata toStr).value (toStr.metadata .TrackNumber) = some (.int 0) := by
  refine ⟨?_, ?_, ?_, ?_, ?_, ?_, ?_, ?_⟩
  · intro key
    simp only [generateEmptyMetadata, contains_insert, Bool.or_eq_true, decide_eq_true_eq,
      List.mem_cons, List.mem_singleton, List.not_mem_nil, or_false]
    have : QMap.contains ([] : QVariantMap) key = false := rfl
    rw [this]
    simp only [Bool.false_eq_true, or_false]
    constructor
    · rintro (h | h | h | h | h | h) <;> simp [← h]
    · rintro (h | h | h | h | h | h) <;> simp [h]
  · have hmem : ∀ key ∈ [toStr.metadata .Title, toStr.metadata .Artist, toStr.metadata .Album,
        toStr.metadata .Genre, toStr.metadata .Length, toStr.metadata .TrackNumber],
        key ∈ (generateEmptyMetadata toStr).keys := by
      intro key hkey
      rw [← contains_iff_mem_keys]
      simp only [generateEmptyMetadata, contains_insert, Bool.or_eq_true, decide_eq_true_eq]
      simp only [List.mem_cons, List.mem_singleton, List.not_mem_nil, or_false] at hkey
      rcases hkey with h | h | h | h | h | h <;> simp [h]
    have hnodup : [toStr.metadata .Title, toStr.metadata .Artist, toStr.metadata .Album,
        toStr.metadata .Genre, toStr.metadata .Length, toStr.metadata .TrackNumber].Nodup :=
      List.Nodup.map hinj
        (by decide : [Metadata.Title, .Artist, .Album, .Genre, .Length, .TrackNumber].Nodup)
    have hge := (hnodup.subperm hmem).length_le
    have h₁ := length_insert_le [] (toStr.metadata .Title) (.string "")
    have h₂ := length_insert_le _ (toStr.metadata .Artist) (.string "") |>.trans
      (Nat.succ_le_succ h₁)
    have h₃ := length_insert_le _ (toStr.metadata .Album) (.string "") |>.trans
      (Nat.succ_le_succ h₂)
    have h₄ := length_insert_le _ (toStr.metadata .Genre) (.string "") |>.trans
      (Nat.succ_le_succ h₃)
    have h₅ := length_insert_le _ (toStr.metadata .Length) (.longLong 0) |>.trans
      (Nat.succ_le_succ h₄)
    have h₆ := length_insert_le _ (toStr.metadata .TrackNumber) (.int 0) |>.trans
      (Nat.succ_le_succ h₅)
    have hle : (generateEmptyMetadata toStr).keys.length ≤ 6 := by
      simpa [QMap.keys, generateEmptyMetadata] using h₆
    simp only [List.length_cons, List.length_nil] at hge
    omega
  all_goals
    simp only [generateEmptyMetadata, value_insert]
    simp [hinj.eq_iff]

theorem isDefaultSnapshot_syncData_none (toStr : EnumerationToString)
    (hinj : Function.Injective toStr.metadata) (player : MprisPlayer) :
    IsDefaultSnapshot toStr (syncData.player toStr none player) := by
  rw [syncData_player_none]
  obtain ⟨h₁, h₂, h₃, h₄, h₅, h₆, h₇, h₈⟩ := generateEmptyMetadata_default toStr hinj
  exact ⟨rfl, h₁, h₂, h₃, h₄, h₅, h₆, h₇, h₈, rfl, rfl, rfl, rfl, rfl, rfl, rfl, rfl, rfl, rfl,
    rfl⟩

theorem constructor_state (toStr : EnumerationToString) (controllers : Controllers)
    (bus : SystemBus) (player : MprisPlayer) :
    (MprisBluezProxy.constructor toStr controllers bus player).1 =
      syncData toStr controllers (MprisBluezProxy.initial player) := by
  unfold MprisBluezProxy.constructor bluezSearchAndRegister
  cases bus.isConnected <;> rfl

theorem Scenario.toStr_metadata_injective : Function.Injective Scenario.toStr.metadata := by
  intro a b h
  cases a <;> cases b <;> first | rfl | exact absurd h (by decide)

/-- C12: the string forms of the six metadata keys being distinct, for every state with a
controller bound, after `setCurrentController` with a null reference the proxy player is the
default snapshot: identity empty, metadata exactly the six well-known keys with title, artist,
album and genre empty and length and track number 0, playbackStatus Stopped, position 0, shuffle
false, loopStatus None, canGoNext, canGoPrevious, canPause, canPlay and canSeek false,
canControl true and hasTrackList false.  The proxy player is the same snapshot right after
construction. -/
theorem unbound_player_is_default (toStr : EnumerationToString)
    (hinj : Function.Injective toStr.metadata) :
    (∀ (controllers : Controllers) (s : MprisBluezProxy) (c : Nat),
      s.m_currentController = some c →
      IsDefaultSnapshot toStr (setCurrentController toStr controllers s none).m_bluezPlayer) ∧
    (∀ (controllers : Controllers) (bus : SystemBus) (player : MprisPlayer),
      IsDefaultSnapshot toStr
        (MprisBluezProxy.constructor toStr controllers bus player).1.m_bluezPlayer) := by
  constructor
  · intro controllers s c h
    rw [setCurrentController_player_none toStr controllers s c h]
    exact isDefaultSnapshot_syncData_none toStr hinj _
  · intro controllers bus player
    rw [constructor_state]
    exact isDefaultSnapshot_syncData_none toStr hinj _

/-- C12, scenario: the proxy bound to the controller at address 1 and then unbound, and the
proxy as constructed, both hold the default snapshot. -/
theorem unbound_player_is_default_witness :
    Scenario.bound.m_currentController = some 1 ∧
    IsDefaultSnapshot Scenario.toStr
      (setCurrentController Scenario.toStr Scenario.controllers Scenario.bound
        none).m_bluezPlayer ∧
    IsDefaultSnapshot Scenario.toStr Scenario.constructed.m_bluezPlayer :=
  ⟨rfl,
   (unbound_player_is_default Scenario.toStr Scenario.toStr_metadata_injective).1
     Scenario.controllers Scenario.bound 1 rfl,
   (unbound_player_is_default Scenario.toStr Scenario.toStr_metadata_injective).2
     Scenario.controllers Scenario.busUp Scenario.player⟩

/-! ## Subscriptions -/

theorem disconnectController_subscriptions (toStr : EnumerationToString)
    (controllers : Controllers) (s : MprisBluezProxy) (h : SubscriptionInvariant s) :
    (disconnectController toStr controllers s).connections = [] ∧
    (disconnectController toStr controllers s).m_currentController = none := by
  unfold SubscriptionInvariant at h
  cases hc : s.m_currentController with
  | none =>
    rw [hc] at h
    simp [disconnectController, hc, h]
  | some c =>
    rw [hc] at h
    simp [disconnectController, hc, syncData, disconnect, h, ControllerSignal.all]

theorem connectController_subscriptions (toStr : EnumerationToString)
    (controllers : Controllers) (s : MprisBluezProxy) (h : s.connections = []) :
    SubscriptionInvariant (connectController toStr controllers s) ∧
    (connectController toStr controllers s).m_currentController = s.m_currentController := by
  unfold SubscriptionInvariant
  cases hc : s.m_currentController with
  | none => simp [connectController, hc, h]
  | some c => simp [connectController, hc, syncData, connect, h, ControllerSignal.all]

theorem setCurrentController_subscriptions (toStr : EnumerationToString)
    (controllers : Controllers) (s : MprisBluezProxy) (currentController : Option Nat)
    (h : SubscriptionInvariant s) :
    SubscriptionInvariant (setCurrentController toStr controllers s currentController) ∧
    (setCurrentController toStr controllers s currentController).m_currentController
      = currentController := by
  unfold setCurrentController
  split
  · obtain ⟨h₁, -⟩ := disconnectController_subscriptions toStr controllers s h
    exact connectController_subscriptions toStr controllers
      { disconnectController toStr controllers s with m_currentController := currentController }
      h₁
  · rename_i hc
    exact ⟨h, not_not.mp hc⟩

theorem setCurrentController_cases (toStr : EnumerationToString) (controllers : Controllers)
    (s : MprisBluezProxy) (currentController : Option Nat) :
    setCurrentController toStr controllers s currentController = s ∨
    ((setCurrentController toStr controllers s currentController).m_bluezPlayer.canControl
        = true ∧
      (setCurrentController toStr controllers s currentController).m_bluezPlayer.hasTrackList
        = false) := by
  by_cases h : s.m_currentController = currentController
  · left
    simp [setCurrentController, h]
  · right
    cases currentController with
    | some c =>
      rw [setCurrentController_player_some toStr controllers s c h, syncData_player_some]
      exact ⟨rfl, rfl⟩
    | none =>
      cases hc : s.m_currentController with
      | none => exact absurd hc h
      | some c =>
        rw [setCurrentController_player_none toStr controllers s c hc, syncData_player_none]
        exact ⟨rfl, rfl⟩

theorem slot_bound (controllers : Controllers) (s : MprisBluezProxy) (n : Notification)
    (c : Nat) (h : s.m_currentController = some c) :
    ∃ r, slot controllers s n = some r ∧
      r.1.m_currentController = s.m_currentController ∧
      r.1.connections = s.connections ∧
      r.1.m_bluezPlayer.hasTrackList = s.m_bluezPlayer.hasTrackList ∧
      (r.1.m_bluezPlayer.canControl = s.m_bluezPlayer.canControl ∨
        (n = .canControlChanged ∧
          r.1.m_bluezPlayer.canControl = (controllers c).canControl)) := by
  cases n <;>
    simp [slot, identityChanged, canControlChanged, canGoNextChanged, canGoPreviousChanged,
      canPauseChanged, canPlayChanged, canSeekChanged, loopStatusChanged, maximumRateChanged,
      metadataChanged, minimumRateChanged, playbackStatusChanged, positionChanged, rateChanged,
      shuffleChanged, volumeChanged, seeked, h, MprisPlayer.setIdentity,
      MprisPlayer.setCanControl, MprisPlayer.setCanGoNext, MprisPlayer.setCanGoPrevious,
      MprisPlayer.setCanPause, MprisPlayer.setCanPlay, MprisPlayer.setCanSeek,
      MprisPlayer.setLoopStatus, MprisPlayer.setMaximumRate, MprisPlayer.setMetadata,
      MprisPlayer.setMinimumRate, MprisPlayer.setPlaybackStatus, MprisPlayer.setPosition,
      MprisPlayer.setRate, MprisPlayer.setShuffle, MprisPlayer.setVolume]

theorem activate_no_match (controllers : Controllers) (sender : Nat) (n : Notification)
    (l : List Connection) (s : MprisBluezProxy) (h : ∀ conn ∈ l, conn.sender ≠ sender) :
    activate controllers sender n l s = some (s, []) := by
  induction l with
  | nil => rfl
  | cons conn rest ih =>
    have hne : conn ≠ ⟨sender, n.signal⟩ := fun e =>
      h conn (List.mem_cons_self _ _) (by rw [e])
    simp only [activate, hne, if_false]
    exact ih fun x hx => h x (List.mem_cons_of_mem _ hx)

theorem activate_bound (controllers : Controllers) (c : Nat) (n : Notification)
    (l : List Connection) :
    ∀ s : MprisBluezProxy, s.m_currentController = some c →
      ∃ r, activate controllers c n l s = some r ∧
        r.1.m_currentController = s.m_currentController ∧
        r.1.connections = s.connections ∧
        r.1.m_bluezPlayer.hasTrackList = s.m_bluezPlayer.hasTrackList ∧
        (r.1.m_bluezPlayer.canControl = s.m_bluezPlayer.canControl ∨
          (n = .canControlChanged ∧
            r.1.m_bluezPlayer.canControl = (controllers c).canControl)) := by
  induction l with
  | nil =>
    intro s _
    exact ⟨(s, []), rfl, rfl, rfl, rfl, Or.inl rfl⟩
  | cons conn rest ih =>
    intro s h
    by_cases hm : conn = ⟨c, n.signal⟩
    · obtain ⟨r, hr, h₁, h₂, h₃, h₄⟩ := slot_bound controllers s n c h
      obtain ⟨r', hr', h₁', h₂', h₃', h₄'⟩ := ih r.1 (h₁.trans h)
      refine ⟨(r'.1, r.2 ++ r'.2), ?_, h₁'.trans h₁, h₂'.trans h₂, h₃'.trans h₃, ?_⟩
      · simp only [activate, hm, if_true, hr, hr']
      · rcases h₄' with h₄' | ⟨hn, h₄'⟩
        · rcases h₄ with h₄ | ⟨hn, h₄⟩
          · exact Or.inl (h₄'.trans h₄)
          · exact Or.inr ⟨hn, h₄'.trans h₄⟩
        · exact Or.inr ⟨hn, h₄'⟩
    · simp only [activate, hm, if_false]
      exact ih s h

theorem notify_invariant (controllers : Controllers) (s : MprisBluezProxy) (sender : Nat)
    (n : Notification) (h : SubscriptionInvariant s) :
    ∃ r, notify controllers s sender n = some r ∧
      r.1.m_currentController = s.m_currentController ∧
      r.1.connections = s.connections ∧
      r.1.m_bluezPlayer.hasTrackList = s.m_bluezPlayer.hasTrackList ∧
      (r.1.m_bluezPlayer.canControl = s.m_bluezPlayer.canControl ∨
        (n = .canControlChanged ∧
          r.1.m_bluezPlayer.canControl = (controllers sender).canControl)) := by
  unfold SubscriptionInvariant at h
  by_cases hs : s.m_currentController = some sender
  · exact activate_bound controllers sender n s.connections s hs
  · refine ⟨(s, []), ?_, rfl, rfl, rfl, Or.inl rfl⟩
    apply activate_no_match
    intro conn hconn
    cases hc : s.m_currentController with
    | none =>
      rw [hc] at h
      rw [h] at hconn
      cases hconn
    | some c =>
      rw [hc] at h hs
      rw [h] at hconn
      obtain ⟨signal, -, rfl⟩ := List.mem_map.mp hconn
      exact fun e => hs (by rw [← e])

theorem onBluezRequested_state (s : MprisBluezProxy) (r : Request) :
    (onBluezRequested s r).1 = s := by
  cases h : s.m_currentController <;> cases r <;>
    simp [onBluezRequested, onBluezLoopStatusRequested, onBluezRateRequested,
      onBluezShuffleRequested, onBluezVolumeRequested, onBluezNextRequested,
      onBluezOpenUriRequested, onBluezPauseRequested, onBluezPlayRequested,
      onBluezPlayPauseRequested, onBluezPreviousRequested, onBluezSeekRequested,
      onBluezSetPositionRequested, onBluezStopRequested, h]

theorem bridgeRun_invariant (toStr : EnumerationToString)
    (trace : List (Controllers × BridgeEvent)) :
    ∀ s : MprisBluezProxy, SubscriptionInvariant s → s.m_bluezPlayer.hasTrackList = false →
      ∃ s', bridgeRun toStr s trace = some s' ∧ SubscriptionInvariant s' ∧
        s'.m_bluezPlayer.hasTrackList = false ∧
        (s.m_bluezPlayer.canControl = true →
          (∀ controllers sender,
            (controllers, BridgeEvent.notification sender .canControlChanged) ∈ trace →
            (controllers sender).canControl = true) →
          s'.m_bluezPlayer.canControl = true) := by
  induction trace with
  | nil =>
    intro s h ht
    exact ⟨s, rfl, h, ht, fun hc _ => hc⟩
  | cons we rest ih =>
    intro s h ht
    obtain ⟨controllers, e⟩ := we
    cases e with
    | bind currentController =>
      obtain ⟨hinv, -⟩ :=
        setCurrentController_subscriptions toStr controllers s currentController h
      have hcases := setCurrentController_cases toStr controllers s currentController
      have ht' : (setCurrentController toStr controllers s
          currentController).m_bluezPlayer.hasTrackList = false := by
        rcases hcases with hsame | ⟨-, hfalse⟩
        · rw [hsame]
          exact ht
        · exact hfalse
      obtain ⟨s', hrun, hinv', htl, hcc⟩ := ih _ hinv ht'
      refine ⟨s', ?_, hinv', htl, fun hc hall => hcc ?_ fun w a hmem =>
        hall w a (List.mem_cons_of_mem _ hmem)⟩
      · simpa [bridgeRun, bridgeStep] using hrun
      · rcases hcases with hsame | ⟨htrue, -⟩
        · rw [hsame]
          exact hc
        · exact htrue
    | notification sender n =>
      obtain ⟨r, hr, h₁, h₂, h₃, h₄⟩ := notify_invariant controllers s sender n h
      have hinv : SubscriptionInvariant r.1 := by
        unfold SubscriptionInvariant at h ⊢
        rw [h₁, h₂]
        exact h
      obtain ⟨s', hrun, hinv', htl, hcc⟩ := ih r.1 hinv (h₃.trans ht)
      refine ⟨s', ?_, hinv', htl, fun hc hall => hcc ?_ fun w a hmem =>
        hall w a (List.mem_cons_of_mem _ hmem)⟩
      · simpa [bridgeRun, bridgeStep, hr] using hrun
      · rcases h₄ with h₄ | ⟨hn, h₄⟩
        · exact h₄.trans hc
        · rw [h₄]
          exact hall controllers sender (by rw [hn]; exact List.mem_cons_self _ _)
    | request r =>
      obtain ⟨s', hrun, hinv', htl, hcc⟩ := ih s h ht
      refine ⟨s', ?_, hinv', htl, fun hc hall => hcc hc fun w a hmem =>
        hall w a (List.mem_cons_of_mem _ hmem)⟩
      simpa [bridgeRun, bridgeStep, onBluezRequested_state] using hrun

theorem constructor_invariant (toStr : EnumerationToString) (controllers : Controllers)
    (bus : SystemBus) (player : MprisPlayer) :
    SubscriptionInvariant (MprisBluezProxy.constructor toStr controllers bus player).1 ∧
    (MprisBluezProxy.constructor toStr controllers bus player).1.m_bluezPlayer.hasTrackList
      = false ∧
    (MprisBluezProxy.constructor toStr controllers bus player).1.m_bluezPlayer.canControl
      = true := by
  rw [constructor_state]
  exact ⟨rfl, rfl, rfl⟩

theorem count_subscription (c : Nat) (signal : ControllerSignal) :
    (ControllerSignal.all.map fun signal => (⟨c, signal⟩ : Connection)).count ⟨c, signal⟩
      = 1 := by
  have hinj : Function.Injective fun signal => (⟨c, signal⟩ : Connection) := by
    intro a b h
    exact (Connection.mk.injEq _ _ _ _ ▸ h).2
  rw [List.count_map_of_injective _ _ hinj]
  cases signal <;> rfl

theorem notify_canControlChanged (controllers : Controllers) (s : MprisBluezProxy) (c : Nat)
    (h : SubscriptionInvariant s) (hc : s.m_currentController = some c) :
    notify controllers s c .canControlChanged =
      some ({ s with m_bluezPlayer :=
                s.m_bluezPlayer.setCanControl (controllers c).canControl }, []) := by
  unfold SubscriptionInvariant at h
  rw [hc] at h
  simp [notify, h, activate, ControllerSignal.all, Notification.signal, slot,
    canControlChanged, hc]

/-- C15: in every state reached from construction by any sequence of binds (of any controller,
null and repeated ones included), notifications and requests, no handler having dereferenced a
null pointer: with no controller bound the proxy has no connection; with a controller bound,
every connection is from that controller and each of the seventeen signals is connected exactly
once; after a switch to anything but controller A no connection from A is left and a
notification from A runs no slot and changes nothing; and binding the controller already bound
changes nothing. -/
theorem subscriptions_follow_binding (toStr : EnumerationToString) (controllers₀ : Controllers)
    (bus : SystemBus) (player : MprisPlayer) (trace : List (Controllers × BridgeEvent)) :
    ∃ s, bridgeRun toStr (MprisBluezProxy.constructor toStr controllers₀ bus player).1 trace
        = some s ∧
      (s.m_currentController = none → s.connections = []) ∧
      (∀ c, s.m_currentController = some c →
        (∀ conn ∈ s.connections, conn.sender = c) ∧
        (∀ signal, s.connections.count ⟨c, signal⟩ = 1) ∧
        s.connections.length = 17) ∧
      (∀ (controllers : Controllers) (A : Nat) (B : Option Nat), B ≠ some A →
        (∀ conn ∈ (setCurrentController toStr controllers s B).connections,
          conn.sender ≠ A) ∧
        ∀ (controllers' : Controllers) (n : Notification),
          notify controllers' (setCurrentController toStr controllers s B) A n
            = some (setCurrentController toStr controllers s B, [])) ∧
      (∀ controllers : Controllers,
        setCurrentController toStr controllers s s.m_currentController = s) := by
  obtain ⟨hinv₀, ht₀, -⟩ := constructor_invariant toStr controllers₀ bus player
  obtain ⟨s, hrun, hinv, -, -⟩ := bridgeRun_invariant toStr trace _ hinv₀ ht₀
  have hsenders : ∀ (t : MprisBluezProxy), SubscriptionInvariant t →
      ∀ conn ∈ t.connections, t.m_currentController = some conn.sender := by
    intro t ht conn hconn
    unfold SubscriptionInvariant at ht
    cases hc : t.m_currentController with
    | none =>
      rw [hc] at ht
      rw [ht] at hconn
      cases hconn
    | some c =>
      rw [hc] at ht
      rw [ht] at hconn
      obtain ⟨signal, -, rfl⟩ := List.mem_map.mp hconn
      rfl
  refine ⟨s, hrun, ?_, ?_, ?_, ?_⟩
  · intro hc
    have h := hinv
    unfold SubscriptionInvariant at h
    rw [hc] at h
    exact h
  · intro c hc
    have h := hinv
    unfold SubscriptionInvariant at h
    rw [hc] at h
    refine ⟨fun conn hconn => ?_, fun signal => ?_, ?_⟩
    · have := hsenders s hinv conn hconn
      rw [hc] at this
      exact (Option.some.inj this).symm
    · rw [h]
      exact count_subscription c signal
    · rw [h]
      rfl
  · intro controllers A B hB
    obtain ⟨hinv', hcur⟩ := setCurrentController_subscriptions toStr controllers s B hinv
    have hno : ∀ conn ∈ (setCurrentController toStr controllers s B).connections,
        conn.sender ≠ A := by
      intro conn hconn hA
      have := hsenders _ hinv' conn hconn
      rw [hcur, hA] at this
      exact hB this
    exact ⟨hno, fun controllers' n => activate_no_match controllers' A n _ _ hno⟩
  · intro controllers
    simp [setCurrentController]

/-- C15, scenario: after a run that binds the controller at address 1, binds it again and
switches to the controller at address 2, the proxy is bound to 2 with seventeen connections, all
from 2, and a notification from 1 changes nothing. -/
theorem subscriptions_follow_binding_witness :
    ∃ s, bridgeRun Scenario.toStr Scenario.constructed Scenario.session = some s ∧
      (s.m_currentController = none → s.connections = []) ∧
      (∀ c, s.m_currentController = some c →
        (∀ conn ∈ s.connections, conn.sender = c) ∧
        (∀ signal, s.connections.count ⟨c, signal⟩ = 1) ∧
        s.connections.length = 17) ∧
      (∀ (controllers : Controllers) (A : Nat) (B : Option Nat), B ≠ some A →
        (∀ conn ∈ (setCurrentController Scenario.toStr controllers s B).connections,
          conn.sender ≠ A) ∧
        ∀ (controllers' : Controllers) (n : Notification),
          notify controllers' (setCurrentController Scenario.toStr controllers s B) A n
            = some (setCurrentController Scenario.toStr controllers s B, [])) ∧
      (∀ controllers : Controllers,
        setCurrentController Scenario.toStr controllers s s.m_currentController = s) :=
  subscriptions_follow_binding Scenario.toStr Scenario.controllers Scenario.busUp
    Scenario.player Scenario.session

/-! ## canControl and hasTrackList -/

/-- C13, as stated, fails: the controller at address 1 is bound while it reports canControl =
true, then reports canControl = false and emits canControlChanged; the proxy player ends with
canControl = false. -/
theorem canControl_follows_notification :
    (bridgeRun Scenario.toStr Scenario.constructed Scenario.controlLost).map
      (fun s => (s.m_currentController, s.m_bluezPlayer.canControl)) = some (some 1, false) :=
  rfl

theorem setCurrentController_changed (toStr : EnumerationToString) (controllers : Controllers)
    (s : MprisBluezProxy) (currentController : Option Nat)
    (h : s.m_currentController ≠ currentController) :
    (setCurrentController toStr controllers s currentController).m_bluezPlayer.canControl
      = true ∧
    (setCurrentController toStr controllers s currentController).m_bluezPlayer.hasTrackList
      = false := by
  cases currentController with
  | some c =>
    rw [setCurrentController_player_some toStr controllers s c h, syncData_player_some]
    exact ⟨rfl, rfl⟩
  | none =>
    cases hc : s.m_currentController with
    | none => exact absurd hc h
    | some c =>
      rw [setCurrentController_player_none toStr controllers s c hc, syncData_player_none]
      exact ⟨rfl, rfl⟩

/-- C13, amended: in every state reached from construction by any sequence of binds,
notifications and requests, the proxy player has hasTrackList = false, bound or not.  Its
canControl is true right after construction; it is true right after a bind of a reference other
than the bound one, whatever the controllers report, while a bind of the bound reference leaves
the proxy (and so canControl) as it is; it is true in every reached state as long as every
canControlChanged notification came from a controller reporting canControl = true at that
moment; and a canControlChanged notification from the bound controller stores the value that
controller reports, true or false. -/
theorem hasTrackList_false_canControl_default (toStr : EnumerationToString)
    (controllers₀ : Controllers) (bus : SystemBus) (player : MprisPlayer)
    (trace : List (Controllers × BridgeEvent)) :
    (MprisBluezProxy.constructor toStr controllers₀ bus player).1.m_bluezPlayer.canControl
      = true ∧
    ∃ s, bridgeRun toStr (MprisBluezProxy.constructor toStr controllers₀ bus player).1 trace
        = some s ∧
      s.m_bluezPlayer.hasTrackList = false ∧
      ((∀ controllers sender,
          (controllers, BridgeEvent.notification sender .canControlChanged) ∈ trace →
          (controllers sender).canControl = true) →
        s.m_bluezPlayer.canControl = true) ∧
      (∀ (controllers : Controllers) (c : Nat), s.m_currentController = some c →
        notify controllers s c .canControlChanged =
          some ({ s with m_bluezPlayer :=
                    { s.m_bluezPlayer with canControl := (controllers c).canControl } },
                [])) ∧
      (∀ (controllers : Controllers) (B : Option Nat), s.m_currentController ≠ B →
        (setCurrentController toStr controllers s B).m_bluezPlayer.canControl = true ∧
        (setCurrentController toStr controllers s B).m_bluezPlayer.hasTrackList = false) ∧
      (∀ controllers : Controllers,
        setCurrentController toStr controllers s s.m_currentController = s) := by
  obtain ⟨hinv₀, ht₀, hc₀⟩ := constructor_invariant toStr controllers₀ bus player
  obtain ⟨s, hrun, hinv, htl, hcc⟩ := bridgeRun_invariant toStr trace _ hinv₀ ht₀
  exact ⟨hc₀, s, hrun, htl, hcc hc₀,
    fun controllers c hc => notify_canControlChanged controllers s c hinv hc,
    fun controllers B hB => setCurrentController_changed toStr controllers s B hB,
    fun controllers => by simp [setCurrentController]⟩

/-- C13, amended, scenarios: after the run that binds the controller at address 1, switches to
the one at address 2 and sees no canControlChanged, the proxy player has hasTrackList = false
and canControl = true, and a bind of any other reference leaves canControl = true though the
controllers report false.  After the run in which the bound controller at address 1 notified
canControl = false, binding that controller again changes nothing, so canControl stays false,
while binding the controller at address 2 makes it true. -/
theorem hasTrackList_false_canControl_default_witness :
    (∃ s, bridgeRun Scenario.toStr Scenario.constructed Scenario.session = some s ∧
      s.m_bluezPlayer.hasTrackList = false ∧ s.m_bluezPlayer.canControl = true ∧
      ∀ B : Option Nat, s.m_currentController ≠ B →
        (setCurrentController Scenario.toStr Scenario.controllers s B).m_bluezPlayer.canControl
          = true) ∧
    (∃ s, bridgeRun Scenario.toStr Scenario.constructed Scenario.controlLost = some s ∧
      s.m_currentController = some 1 ∧ s.m_bluezPlayer.canControl = false ∧
      (setCurrentController Scenario.toStr Scenario.controllers s
        (some 1)).m_bluezPlayer.canControl = false ∧
      (setCurrentController Scenario.toStr Scenario.controllers s
        (some 2)).m_bluezPlayer.canControl = true) :=
  ⟨match (hasTrackList_false_canControl_default Scenario.toStr Scenario.controllers
      Scenario.busUp Scenario.player Scenario.session).2 with
    | ⟨s, hrun, htl, hcc, _, hbind, _⟩ =>
      ⟨s, hrun, htl,
        hcc (fun controllers sender hmem => by simp [Scenario.session] at hmem),
        fun B hB => (hbind Scenario.controllers B hB).1⟩,
   match (hasTrackList_false_canControl_default Scenario.toStr Scenario.controllers
      Scenario.busUp Scenario.player Scenario.controlLost).2 with
    | ⟨s, hrun, _, _, _, hbind, hsame⟩ =>
      have hs : s = { Scenario.bound with
          m_bluezPlayer := { Scenario.bound.m_bluezPlayer with canControl := false } } :=
        Option.some.inj (hrun.symm.trans rfl)
      have hcur : s.m_currentController = some 1 := by subst hs; rfl
      have hcc : s.m_bluezPlayer.canControl = false := by subst hs; rfl
      ⟨s, hrun, hcur, hcc,
        by rw [← hcur, hsame Scenario.controllers]; exact hcc,
        (hbind Scenario.controllers (some 2) (by rw [hcur]; decide)).1⟩⟩

end MprisBluez
